import Mathlib

/-!
Verification of the pluggable CPU-scheduler core (round-robin, priority,
MLFQ, lottery, CFS, real-time) against its natural-language specification.
The C sources are shallowly embedded: every static/global variable of a
policy becomes a field of a state record, every function becomes a state
transformer, machine integers become Nat with an explicit modulus where the
C arithmetic can wrap, and the external context_switch primitive becomes a
ghost log of invocations.  Node pools are modelled by the length of the
free list: every allocator in the sources clears the node it hands out, so
stale contents of free nodes are unobservable and only the count matters.
C pointer identity is rendered as value identity; every comparison against
a cached pointer compares the cached value, which coincides with pointer
identity whenever the linked structures hold pairwise distinct node values
(true in all reachable states used below).
-/

/-! ## Machine arithmetic -/

/-- Modulus of 32-bit unsigned arithmetic. -/
def W32 : Nat := 4294967296

/-- Modulus of 64-bit unsigned arithmetic. -/
def W64 : Nat := 18446744073709551616

/-- Wrapping 32-bit addition. -/
def add32 (a b : Nat) : Nat := (a + b) % W32

/-- Wrapping 32-bit subtraction (operands are reduced mod 2^32 first). -/
def sub32 (a b : Nat) : Nat := (a % W32 + (W32 - b % W32)) % W32

/-- Wrapping 64-bit addition. -/
def add64 (a b : Nat) : Nat := (a + b) % W64

/-- Wrapping 64-bit subtraction. -/
def sub64 (a b : Nat) : Nat := (a % W64 + (W64 - b % W64)) % W64

/-- Wrapping 64-bit multiplication. -/
def mul64 (a b : Nat) : Nat := (a * b) % W64

/-! ## CFS: completely fair scheduler (src/cfs.c, src/cfs.h) -/

/-- CFS_TARGET_LATENCY from cfs.h. -/
def CFS_TARGET_LATENCY : Nat := 20

/-- CFS_MIN_GRANULARITY from cfs.h. -/
def CFS_MIN_GRANULARITY : Nat := 4

/-- CFS_WEIGHT_NICE0 from cfs.h. -/
def CFS_WEIGHT_NICE0 : Nat := 1024

/-- CFS_NICE_LEVELS from cfs.h. -/
def CFS_NICE_LEVELS : Nat := 40

/-- CFS_SLEEPER_BONUS from cfs.h (1 = enabled). -/
def CFS_SLEEPER_BONUS : Nat := 1

/-- CFS_MAX_TASKS from cfs.c (size of the task pool). -/
def CFS_MAX_TASKS : Nat := 256

/-- Weight table indexed by nice+20, from cfs.c. -/
def cfs_weight_table : List Nat :=
  [88761, 71755, 56483, 46273, 36291,
   29154, 23254, 18705, 14949, 11916,
   9548,  7620,  6100,  4904,  3906,
   3121,  2501,  1991,  1586,  1277,
   1024,  820,   655,   526,   423,
   335,   272,   215,   172,   137,
   110,   87,    70,    56,    45,
   36,    29,    23,    18,    15]

/-- cfs_task_t: one CFS task control block (pointer fields omitted; list
position plays their role). -/
structure CfsTask where
  pid : Int
  nice : Int
  weight : Nat
  vruntime : Nat
  exec_start : Nat
  sum_exec : Nat
  prev_sum_exec : Nat
  sleep_start : Nat
  on_rq : Bool
deriving DecidableEq

/-- cfs_rq_t together with the file-static variables of cfs.c (stats,
system_clock, the free pool as a count) and a ghost log of context_switch
invocations. -/
structure CfsState where
  nr_running : Nat
  min_vruntime : Nat
  clock : Nat
  clock_task : Nat
  load_weight : Nat
  tasks_timeline : List CfsTask
  curr : Option CfsTask
  leftmost : Option CfsTask
  freeTasks : Nat
  statSwitches : Nat
  statTotalRuntime : Nat
  statSleepTime : Nat
  system_clock : Nat
  ctxLog : List (Int × Int)
deriving DecidableEq

/-- max64 from cfs.c. -/
def max64 (a b : Nat) : Nat := if a > b then a else b

/-- cfs_nice_to_weight from cfs.c: clamp nice+20 into the table. -/
def cfs_nice_to_weight (nice : Int) : Nat :=
  let index := nice + 20
  let index := if index < 0 then 0 else index
  let index := if index ≥ (CFS_NICE_LEVELS : Int) then (CFS_NICE_LEVELS : Int) - 1 else index
  cfs_weight_table.getD index.toNat 0

/-- cfs_calc_delta from cfs.c: virtual-time delta for a real delta at a
given weight (64-bit multiply wraps before the division). -/
def cfs_calc_delta (delta_exec : Nat) (weight : Nat) : Nat :=
  if weight = 0 then delta_exec
  else mul64 delta_exec CFS_WEIGHT_NICE0 / weight

/-- cfs_sched_latency from cfs.c.  Note the source uses a strict
nr_running > 8 test, not a max with MIN_GRANULARITY * nr_running. -/
def cfs_sched_latency (nr_running : Nat) : Nat :=
  let latency := CFS_TARGET_LATENCY
  if nr_running > 8 then CFS_MIN_GRANULARITY * nr_running else latency

/-- cfs_timeslice from cfs.c (task is always present in this embedding;
the task == NULL guard of the source collapses). -/
def cfs_timeslice (s : CfsState) (task : CfsTask) : Nat :=
  if s.nr_running = 0 then CFS_TARGET_LATENCY
  else
    let latency := cfs_sched_latency s.nr_running
    let slice := latency * task.weight / s.load_weight
    if slice < CFS_MIN_GRANULARITY then CFS_MIN_GRANULARITY else slice

/-- Insert a task into the tail part of the timeline before the first
element with strictly larger vruntime (the while loop of insert_task). -/
def insertTimeline (t : CfsTask) : List CfsTask → List CfsTask
  | [] => [t]
  | x :: xs => if x.vruntime ≤ t.vruntime then x :: insertTimeline t xs else t :: x :: xs

/-- insert_task from cfs.c: mark on_rq, insert sorted by vruntime, update
the leftmost cache exactly when inserting at the head. -/
def insert_task (s : CfsState) (task0 : CfsTask) : CfsState :=
  let task := {task0 with on_rq := true}
  match s.tasks_timeline with
  | [] => {s with tasks_timeline := [task], leftmost := some task}
  | x :: xs =>
      if task.vruntime < x.vruntime then
        {s with tasks_timeline := task :: x :: xs, leftmost := some task}
      else
        {s with tasks_timeline := x :: insertTimeline task xs}

/-- Remove the first occurrence of a task value from a list. -/
def removeFirstTask (t : CfsTask) : List CfsTask → List CfsTask
  | [] => []
  | x :: xs => if x = t then xs else x :: removeFirstTask t xs

/-- Successor of the first occurrence of a task value in a list
(the task->next read of remove_task). -/
def nextInTimeline (t : CfsTask) : List CfsTask → Option CfsTask
  | [] => none
  | x :: xs => if x = t then xs.head? else nextInTimeline t xs

/-- remove_task from cfs.c: clear on_rq, unlink, keep the head and
leftmost caches in step.  Returns the updated node value alongside the
state, mirroring the in-place mutation of the C node. -/
def remove_task (s : CfsState) (task : CfsTask) : CfsState × CfsTask :=
  if task.on_rq = false then (s, task)
  else
    ({s with
        tasks_timeline := removeFirstTask task s.tasks_timeline,
        leftmost := if s.leftmost = some task then nextInTimeline task s.tasks_timeline
                    else s.leftmost},
     {task with on_rq := false})

/-- find_task from cfs.c: linear search of the timeline by pid (the
running task is not on the timeline and is never found). -/
def findTask (l : List CfsTask) (pid : Int) : Option CfsTask :=
  match l with
  | [] => none
  | x :: xs => if x.pid = pid then some x else findTask xs pid

/-- cfs_update_vruntime from cfs.c, acting on the task node (the stats
update is performed by the caller embedding). -/
def cfs_update_vruntime (t : CfsTask) (delta_exec : Nat) : CfsTask :=
  let delta_vruntime := cfs_calc_delta delta_exec t.weight
  {t with vruntime := add64 t.vruntime delta_vruntime,
          sum_exec := add64 t.sum_exec delta_exec}

/-- cfs_update_min_vruntime from cfs.c: min_vruntime only moves forward,
to the smaller of curr's and leftmost's vruntime. -/
def cfs_update_min_vruntime (s : CfsState) : CfsState :=
  let vruntime := s.min_vruntime
  let vruntime := match s.curr with
    | some c => c.vruntime
    | none => vruntime
  let vruntime := match s.leftmost with
    | none => vruntime
    | some lm =>
        match s.curr with
        | none => lm.vruntime
        | some _ => if lm.vruntime < vruntime then lm.vruntime else vruntime
  {s with min_vruntime := max64 s.min_vruntime vruntime}

/-- update_current from cfs.c: charge the running task the real time since
exec_start, then refresh min_vruntime. -/
def update_current (s : CfsState) : CfsState :=
  match s.curr with
  | none => s
  | some curr =>
    let now := s.clock_task
    let delta_exec := sub64 now curr.exec_start
    if delta_exec = 0 then s
    else
      let curr := cfs_update_vruntime curr delta_exec
      let curr := {curr with exec_start := now}
      let s := {s with curr := some curr,
                       statTotalRuntime := add64 s.statTotalRuntime delta_exec}
      cfs_update_min_vruntime s

/-- cfs_place_task from cfs.c, returning the re-placed task value. -/
def cfs_place_task (s : CfsState) (task : CfsTask) (initial : Bool) : CfsTask :=
  let vruntime := s.min_vruntime
  let vruntime :=
    if initial then
      let latency := cfs_sched_latency s.nr_running
      add64 vruntime (cfs_calc_delta (latency / 2) task.weight)
    else vruntime
  {task with vruntime := max64 task.vruntime vruntime}

/-- cfs_pick_next_task from cfs.c: the cached leftmost. -/
def cfs_pick_next_task (s : CfsState) : Option CfsTask := s.leftmost

/-- cfs_check_preempt from cfs.c. -/
def cfs_check_preempt (s : CfsState) : Bool :=
  match s.curr, s.leftmost with
  | none, some _ => true
  | none, none => false
  | some _, none => false
  | some curr, some next =>
      let gran := cfs_calc_delta CFS_MIN_GRANULARITY curr.weight
      add64 next.vruntime gran < curr.vruntime

/-- cfs_put_prev_task from cfs.c. -/
def cfs_put_prev_task (s : CfsState) : CfsState :=
  match s.curr with
  | none => s
  | some _ =>
    let s := update_current s
    match s.curr with
    | none => s
    | some prev =>
      let s :=
        if prev.on_rq then
          let p := remove_task s prev
          insert_task p.1 p.2
        else s
      {s with curr := none}

/-- cfs_set_curr_task from cfs.c. -/
def cfs_set_curr_task (s : CfsState) (task : CfsTask) : CfsState :=
  {s with curr := some {task with exec_start := s.clock_task}}

/-- cfs_schedule from cfs.c.  The pid compared against the chosen task is
read from cfs_rq.curr after cfs_set_curr_task has installed the chosen
task, exactly as in the source. -/
def cfs_schedule (s : CfsState) : CfsState :=
  let s := {s with clock := s.system_clock, clock_task := s.system_clock}
  let s := match s.curr with
    | some _ => update_current s
    | none => s
  let s := cfs_put_prev_task s
  match cfs_pick_next_task s with
  | none => s
  | some next =>
    let p := remove_task s next
    let s := p.1
    let next := p.2
    let s := cfs_set_curr_task s next
    let old_pid : Int := match s.curr with
      | some c => c.pid
      | none => -1
    if old_pid ≠ next.pid then
      {s with statSwitches := s.statSwitches + 1,
              ctxLog := (old_pid, next.pid) :: s.ctxLog}
    else s

/-- cfs_yield from cfs.c. -/
def cfs_yield (s : CfsState) : CfsState :=
  match s.curr with
  | none => s
  | some _ =>
    let s := update_current s
    match s.curr with
    | none => s
    | some curr =>
      let s := match s.leftmost with
        | some lm => {s with curr := some {curr with vruntime := max64 curr.vruntime lm.vruntime}}
        | none => s
      cfs_schedule s

/-- cfs_preempt from cfs.c. -/
def cfs_preempt (s : CfsState) : CfsState := cfs_schedule s

/-- cfs_enqueue from cfs.c (allocation failure when the pool count is 0 is
a silent no-op; the unused cfs_check_preempt call has no effect). -/
def cfs_enqueue (s : CfsState) (pid : Int) : CfsState :=
  match findTask s.tasks_timeline pid with
  | none =>
    if s.freeTasks = 0 then s
    else
      let task : CfsTask :=
        { pid := pid, nice := 0, weight := cfs_nice_to_weight 0,
          vruntime := s.min_vruntime, exec_start := 0, sum_exec := 0,
          prev_sum_exec := 0, sleep_start := 0, on_rq := false }
      let task := cfs_place_task s task true
      let s := {s with freeTasks := s.freeTasks - 1}
      let s := insert_task s task
      {s with nr_running := s.nr_running + 1, load_weight := s.load_weight + task.weight}
  | some task =>
    if task.on_rq then s
    else
      let task := cfs_place_task s task false
      let s := insert_task s task
      {s with nr_running := s.nr_running + 1, load_weight := s.load_weight + task.weight}

/-- cfs_dequeue from cfs.c. -/
def cfs_dequeue (s : CfsState) (pid : Int) : CfsState :=
  match findTask s.tasks_timeline pid with
  | none => s
  | some task =>
    let s :=
      if s.curr = some task then
        let s := update_current s
        {s with curr := none}
      else s
    let s :=
      if task.on_rq then
        let p := remove_task s task
        {p.1 with nr_running := p.1.nr_running - 1,
                  load_weight := p.1.load_weight - task.weight}
      else s
    let s := {s with freeTasks := s.freeTasks + 1}
    cfs_update_min_vruntime s

/-- Replace the first occurrence of a task value in a list. -/
def replaceFirstTask (t t' : CfsTask) : List CfsTask → List CfsTask
  | [] => []
  | x :: xs => if x = t then t' :: xs else x :: replaceFirstTask t t' xs

/-- cfs_sleep from cfs.c: record sleep_start on the node, detach the task
from curr and/or the timeline. -/
def cfs_sleep (s : CfsState) (pid : Int) : CfsState :=
  match findTask s.tasks_timeline pid with
  | none => s
  | some task0 =>
    let task := {task0 with sleep_start := s.system_clock}
    let s := {s with tasks_timeline := replaceFirstTask task0 task s.tasks_timeline,
                     leftmost := if s.leftmost = some task0 then some task else s.leftmost}
    let s :=
      if s.curr = some task then
        let s := update_current s
        {s with curr := none}
      else s
    if task.on_rq then
      let p := remove_task s task
      {p.1 with nr_running := p.1.nr_running - 1,
                load_weight := p.1.load_weight - task.weight}
    else s

/-- cfs_sleeper_credit from cfs.c. -/
def cfs_sleeper_credit (s : CfsState) (task : CfsTask) (sleep_time : Nat) : Nat :=
  let max_credit := cfs_calc_delta (cfs_sched_latency s.nr_running / 2) task.weight
  let credit := cfs_calc_delta sleep_time task.weight / 2
  if credit > max_credit then max_credit else credit

/-- cfs_wakeup from cfs.c (a task found on the timeline has on_rq set, so
the body below the early return is dead in reachable states; it is kept
verbatim). -/
def cfs_wakeup (s : CfsState) (pid : Int) : CfsState :=
  match findTask s.tasks_timeline pid with
  | none => s
  | some task =>
    if task.on_rq then s
    else
      let sleep_time := sub64 s.system_clock task.sleep_start
      let s := {s with statSleepTime := add64 s.statSleepTime sleep_time}
      let task :=
        if CFS_SLEEPER_BONUS ≠ 0 ∧ sleep_time > 0 then
          let credit := cfs_sleeper_credit s task sleep_time
          if task.vruntime > credit then {task with vruntime := task.vruntime - credit}
          else task
        else task
      let task := cfs_place_task s task false
      let s := insert_task s task
      {s with nr_running := s.nr_running + 1, load_weight := s.load_weight + task.weight}

/-- cfs_tick from cfs.c. -/
def cfs_tick (s : CfsState) : CfsState :=
  let s := {s with system_clock := add64 s.system_clock 1}
  let s := {s with clock := s.system_clock, clock_task := s.system_clock}
  match s.curr with
  | none => s
  | some _ =>
    let s := update_current s
    match s.curr with
    | none => s
    | some curr =>
      let ideal_runtime := cfs_timeslice s curr
      let actual_runtime := sub64 curr.sum_exec curr.prev_sum_exec
      if actual_runtime ≥ ideal_runtime then
        if s.nr_running > 1 then
          let s := {s with curr := some {curr with prev_sum_exec := curr.sum_exec}}
          cfs_schedule s
        else s
      else s

/-- cfs_init from cfs.c: zeroed run queue, full free pool. -/
def cfs_init : CfsState :=
  { nr_running := 0, min_vruntime := 0, clock := 0, clock_task := 0,
    load_weight := 0, tasks_timeline := [], curr := none, leftmost := none,
    freeTasks := CFS_MAX_TASKS, statSwitches := 0, statTotalRuntime := 0,
    statSleepTime := 0, system_clock := 0, ctxLog := [] }

/-- cfs_shutdown from cfs.c: free the timeline, zero the run queue (the
running task is not freed, exactly as in the source). -/
def cfs_shutdown (s : CfsState) : CfsState :=
  { s with freeTasks := s.freeTasks + s.tasks_timeline.length,
           nr_running := 0, min_vruntime := 0, clock := 0, clock_task := 0,
           load_weight := 0, tasks_timeline := [], curr := none, leftmost := none }

/-! ## Lottery scheduler (src/lottery.c, lottery.h) -/

/-- LOTTERY_DEFAULT_TICKETS from lottery.h. -/
def LOTTERY_DEFAULT_TICKETS : Nat := 100

/-- LOTTERY_MIN_TICKETS from lottery.h. -/
def LOTTERY_MIN_TICKETS : Nat := 1

/-- LOTTERY_MAX_TICKETS from lottery.h. -/
def LOTTERY_MAX_TICKETS : Nat := 10000

/-- LOTTERY_MAX_ENTRIES from lottery.c. -/
def LOTTERY_MAX_ENTRIES : Nat := 256

/-- DEFAULT_QUANTUM from scheduler.h. -/
def DEFAULT_QUANTUM : Nat := 10

/-- lottery_entry_t (list position plays the role of the next pointer). -/
structure LEntry where
  pid : Int
  base_tickets : Nat
  current_tickets : Nat
  compensation : Nat
  wins : Nat
  total_tickets_held : Nat
deriving DecidableEq

/-- File-static state of lottery.c.  The free pool is its length; the
fairness_index double of the stats record is written only by the
unmodelled floating-point fairness functions and is omitted. -/
structure LotteryState where
  pool : List LEntry
  total_tickets : Nat
  participant_count : Nat
  compensation_enabled : Bool
  current_pid : Int
  time_remaining : Nat
  random_state : Nat
  freeEntries : Nat
  statTotalLotteries : Nat
  statTotalTickets : Nat
  statParticipantCount : Nat
  statTicketsTransferred : Nat
  statCompensationGiven : Nat
  ctxLog : List (Int × Int)
deriving DecidableEq

/-- random_next from lottery.c: the new LCG state. -/
def random_next_state (state : Nat) : Nat := (state * 1103515245 + 12345) % W32

/-- random_next from lottery.c: the returned output, bits [30:16] of the
new state. -/
def random_next_out (state : Nat) : Nat := random_next_state state / 2 ^ 16 % 2 ^ 15

/-- find_entry from lottery.c: first entry with the given pid. -/
def findEntry (l : List LEntry) (pid : Int) : Option LEntry :=
  match l with
  | [] => none
  | e :: es => if e.pid = pid then some e else findEntry es pid

/-- Update the first entry with the given pid (the in-place mutation of
the entry that find_entry returned). -/
def replaceEntry (pid : Int) (f : LEntry → LEntry) : List LEntry → List LEntry
  | [] => []
  | e :: es => if e.pid = pid then f e :: es else e :: replaceEntry pid f es

/-- Unlink the first entry with the given pid (the removal loop of
lottery_dequeue). -/
def removeEntry (pid : Int) : List LEntry → List LEntry
  | [] => []
  | e :: es => if e.pid = pid then es else e :: removeEntry pid es

/-- lottery_init from lottery.c (ops-table plumbing omitted). -/
def lottery_init : LotteryState :=
  { pool := [], total_tickets := 0, participant_count := 0,
    compensation_enabled := true, current_pid := -1, time_remaining := 0,
    random_state := 1, freeEntries := LOTTERY_MAX_ENTRIES,
    statTotalLotteries := 0, statTotalTickets := 0, statParticipantCount := 0,
    statTicketsTransferred := 0, statCompensationGiven := 0, ctxLog := [] }

/-- lottery_shutdown from lottery.c: free every pool entry. -/
def lottery_shutdown (s : LotteryState) : LotteryState :=
  { s with freeEntries := s.freeEntries + s.pool.length, pool := [],
           total_tickets := 0, participant_count := 0, current_pid := -1 }

/-- lottery_enqueue from lottery.c. -/
def lottery_enqueue (s : LotteryState) (pid : Int) : LotteryState :=
  if (findEntry s.pool pid).isSome then s
  else if s.freeEntries = 0 then s
  else
    let entry : LEntry :=
      { pid := pid, base_tickets := LOTTERY_DEFAULT_TICKETS,
        current_tickets := LOTTERY_DEFAULT_TICKETS, compensation := 0,
        wins := 0, total_tickets_held := 0 }
    let total := add32 s.total_tickets entry.current_tickets
    { s with pool := entry :: s.pool, freeEntries := s.freeEntries - 1,
             total_tickets := total,
             participant_count := s.participant_count + 1,
             statTotalTickets := total,
             statParticipantCount := s.participant_count + 1 }

/-- lottery_dequeue from lottery.c. -/
def lottery_dequeue (s : LotteryState) (pid : Int) : LotteryState :=
  match findEntry s.pool pid with
  | none => s
  | some entry =>
    let total := sub32 s.total_tickets entry.current_tickets
    let count := s.participant_count - 1
    let s := { s with pool := removeEntry pid s.pool, total_tickets := total,
                      participant_count := count, statTotalTickets := total,
                      statParticipantCount := count,
                      freeEntries := s.freeEntries + 1 }
    if s.current_pid = pid then {s with current_pid := -1, time_remaining := 0}
    else s

/-- lottery_set_tickets from lottery.c (the returned old value is unused
by the embedded callers). -/
def lottery_set_tickets (s : LotteryState) (pid : Int) (tickets : Nat) : LotteryState :=
  match findEntry s.pool pid with
  | none => s
  | some entry =>
    let tickets := if tickets < LOTTERY_MIN_TICKETS then LOTTERY_MIN_TICKETS else tickets
    let tickets := if tickets > LOTTERY_MAX_TICKETS then LOTTERY_MAX_TICKETS else tickets
    let total := sub32 s.total_tickets entry.current_tickets
    let newEntry := {entry with base_tickets := tickets,
                                current_tickets := add32 tickets entry.compensation}
    let total := add32 total newEntry.current_tickets
    { s with pool := replaceEntry pid (fun _ => newEntry) s.pool,
             total_tickets := total, statTotalTickets := total }

/-- lottery_add_tickets from lottery.c (32-bit addition before clamping). -/
def lottery_add_tickets (s : LotteryState) (pid : Int) (tickets : Nat) : LotteryState :=
  match findEntry s.pool pid with
  | none => s
  | some entry =>
    let new_tickets := add32 entry.base_tickets tickets
    let new_tickets := if new_tickets > LOTTERY_MAX_TICKETS then LOTTERY_MAX_TICKETS
                       else new_tickets
    lottery_set_tickets s pid new_tickets

/-- lottery_remove_tickets from lottery.c. -/
def lottery_remove_tickets (s : LotteryState) (pid : Int) (tickets : Nat) : LotteryState :=
  match findEntry s.pool pid with
  | none => s
  | some entry =>
    let new_tickets := if tickets ≥ entry.base_tickets then LOTTERY_MIN_TICKETS
                       else entry.base_tickets - tickets
    lottery_set_tickets s pid new_tickets

/-- lottery_transfer_tickets from lottery.c.  The second set re-reads the
destination's base tickets after the first set, which reproduces the
aliasing of the source when both pids coincide. -/
def lottery_transfer_tickets (s : LotteryState) (from_pid to_pid : Int) (tickets : Nat) :
    LotteryState :=
  match findEntry s.pool from_pid, findEntry s.pool to_pid with
  | some fromE, some toE =>
    let available := sub32 fromE.base_tickets LOTTERY_MIN_TICKETS
    let to_transfer := if tickets < available then tickets else available
    if to_transfer = 0 then s
    else
      let space := sub32 LOTTERY_MAX_TICKETS toE.base_tickets
      let to_transfer := if to_transfer > space then space else to_transfer
      let s := lottery_set_tickets s from_pid (sub32 fromE.base_tickets to_transfer)
      let toBase := match findEntry s.pool to_pid with
        | some e => e.base_tickets
        | none => 0
      let s := lottery_set_tickets s to_pid (add32 toBase to_transfer)
      {s with statTicketsTransferred := add32 s.statTicketsTransferred to_transfer}
  | _, _ => s

/-- lottery_compensate from lottery.c.  The float fraction is embedded by
its observable effects: validFraction stands for 0 < fraction_used < 1,
and comp for the uint32 value of base_tickets * (1/fraction_used - 1). -/
def lottery_compensate (s : LotteryState) (pid : Int) (validFraction : Bool) (comp : Nat) :
    LotteryState :=
  if ¬ s.compensation_enabled then s
  else
    match findEntry s.pool pid with
    | none => s
    | some entry =>
      if ¬ validFraction then
        let total := sub32 s.total_tickets entry.compensation
        let newEntry := {entry with compensation := 0,
                                    current_tickets := entry.base_tickets}
        let total := add32 total newEntry.current_tickets
        { s with pool := replaceEntry pid (fun _ => newEntry) s.pool,
                 total_tickets := total, statTotalTickets := total }
      else
        let comp := comp % W32
        let total := sub32 s.total_tickets entry.compensation
        let newEntry := {entry with compensation := comp,
                                    current_tickets := add32 entry.base_tickets comp}
        let total := add32 total newEntry.current_tickets
        { s with pool := replaceEntry pid (fun _ => newEntry) s.pool,
                 total_tickets := total, statTotalTickets := total,
                 statCompensationGiven := add32 s.statCompensationGiven comp }

/-- Strip-compensation loop of lottery_compensation_enable(false),
threading the running total through the pool walk. -/
def stripComp : List LEntry → Nat → List LEntry × Nat
  | [], total => ([], total)
  | e :: es, total =>
    let total := sub32 total e.compensation
    let e := {e with compensation := 0, current_tickets := e.base_tickets}
    let p := stripComp es total
    (e :: p.1, p.2)

/-- lottery_compensation_enable from lottery.c. -/
def lottery_compensation_enable (s : LotteryState) (enable : Bool) : LotteryState :=
  let s := {s with compensation_enabled := enable}
  if enable then s
  else
    let p := stripComp s.pool s.total_tickets
    {s with pool := p.1, total_tickets := p.2, statTotalTickets := p.2}

/-- Running uint32 total of recalculate_totals from lottery.c. -/
def sumCurrentMod (l : List LEntry) : Nat :=
  l.foldl (fun a e => add32 a e.current_tickets) 0

/-- recalculate_totals from lottery.c. -/
def recalculate_totals (s : LotteryState) : LotteryState :=
  let total := sumCurrentMod s.pool
  { s with total_tickets := total, participant_count := s.pool.length,
           statTotalTickets := total, statParticipantCount := s.pool.length }

/-- lottery_inflate from lottery.c.  The float multiplication by the
factor is embedded as the function g from old base to the uint32 value of
base_tickets * factor; a non-positive factor returns before the walk and
corresponds to not issuing the operation. -/
def lottery_inflate (s : LotteryState) (g : Nat → Nat) : LotteryState :=
  let pool := s.pool.map (fun e =>
    let new_base := g e.base_tickets % W32
    let new_base := if new_base < LOTTERY_MIN_TICKETS then LOTTERY_MIN_TICKETS else new_base
    let new_base := if new_base > LOTTERY_MAX_TICKETS then LOTTERY_MAX_TICKETS else new_base
    {e with base_tickets := new_base,
            current_tickets := add32 new_base e.compensation})
  recalculate_totals {s with pool := pool}

/-- Winner-search loop of lottery_draw, accumulating uint32 prefix sums
and bumping the winner's win count. -/
def drawLoop (winning : Nat) (counter : Nat) : List LEntry → Option (Int × List LEntry)
  | [] => none
  | e :: es =>
    let counter := add32 counter e.current_tickets
    if counter > winning then some (e.pid, {e with wins := e.wins + 1} :: es)
    else
      match drawLoop winning counter es with
      | some pr => some (pr.1, e :: pr.2)
      | none => none

/-- lottery_draw from lottery.c, returning the winning pid (or -1)
together with the updated state. -/
def lottery_draw (s : LotteryState) : Int × LotteryState :=
  if s.pool = [] ∨ s.total_tickets = 0 then (-1, s)
  else
    let st := random_next_state s.random_state
    let winning_ticket := (st / 2 ^ 16 % 2 ^ 15) % s.total_tickets
    let s := {s with random_state := st}
    match drawLoop winning_ticket 0 s.pool with
    | some pr =>
        (pr.1, {s with pool := pr.2, statTotalLotteries := s.statTotalLotteries + 1})
    | none =>
        match s.pool with
        | [] => (-1, s)
        | e :: es =>
            (e.pid, {s with pool := {e with wins := e.wins + 1} :: es,
                            statTotalLotteries := s.statTotalLotteries + 1})

/-- Operations of claim C2 over the lottery state. -/
inductive LotteryOp where
  | enqueue (pid : Int)
  | dequeue (pid : Int)
  | setTickets (pid : Int) (tickets : Nat)
  | addTickets (pid : Int) (tickets : Nat)
  | removeTickets (pid : Int) (tickets : Nat)
  | transferTickets (from_pid to_pid : Int) (tickets : Nat)
  | compensate (pid : Int) (validFraction : Bool) (comp : Nat)
  | compensationEnable (enable : Bool)
  | inflate (g : Nat → Nat)

/-- Dispatch one claim-C2 operation. -/
def lotteryApply (s : LotteryState) : LotteryOp → LotteryState
  | .enqueue pid => lottery_enqueue s pid
  | .dequeue pid => lottery_dequeue s pid
  | .setTickets pid t => lottery_set_tickets s pid t
  | .addTickets pid t => lottery_add_tickets s pid t
  | .removeTickets pid t => lottery_remove_tickets s pid t
  | .transferTickets f t n => lottery_transfer_tickets s f t n
  | .compensate pid v c => lottery_compensate s pid v c
  | .compensationEnable b => lottery_compensation_enable s b
  | .inflate g => lottery_inflate s g

/-- Run a sequence of claim-C2 operations from the freshly initialized
lottery state. -/
def lotteryRun (ops : List LotteryOp) : LotteryState :=
  ops.foldl lotteryApply lottery_init

/-- Per-entry invariant of the spec (uint32 semantics): current tickets
are base plus compensation, base is in [1, 10000]. -/
abbrev entryWF (e : LEntry) : Prop :=
  e.current_tickets = (e.base_tickets + e.compensation) % W32 ∧
  LOTTERY_MIN_TICKETS ≤ e.base_tickets ∧
  e.base_tickets ≤ LOTTERY_MAX_TICKETS ∧
  e.compensation < W32

/-- State invariant of claim C2: every entry is well formed and the cached
total_tickets equals the uint32 sum of current tickets. -/
abbrev lotteryInv (s : LotteryState) : Prop :=
  (∀ e ∈ s.pool, entryWF e) ∧
  s.total_tickets = (s.pool.map LEntry.current_tickets).sum % W32

/-- Specification-side walk of claim C4: pid of the first entry at which
the running sum of current tickets strictly exceeds the winning ticket. -/
def spec_first_winner (winning : Nat) (acc : Nat) : List LEntry → Option Int
  | [] => none
  | e :: es =>
    if acc + e.current_tickets > winning then some e.pid
    else spec_first_winner winning (acc + e.current_tickets) es

/-- Specification-side pool update of claim C4: increment the wins of the
first entry at which the running sum strictly exceeds the winning ticket. -/
def spec_bump_winner (winning : Nat) (acc : Nat) : List LEntry → List LEntry
  | [] => []
  | e :: es =>
    if acc + e.current_tickets > winning then {e with wins := e.wins + 1} :: es
    else e :: spec_bump_winner winning (acc + e.current_tickets) es

/-! ## Kernel externals shared by the list-based policies -/

/-- Modelled from the spec: NPROC is the compile-time upper bound on pids
and per-policy node-pool sizes; its configured value is in a header not
under src/ and no claim depends on it. -/
def NPROC : Nat := 64

/-- Modelled from the spec: the process-state encodings of the external
process table (its header is not under src/); the six states named in the
spec are encoded as distinct numbers. -/
def PR_FREE : Nat := 0

/-- Process state: currently running. -/
def PR_CURR : Nat := 1

/-- Process state: ready. -/
def PR_READY : Nat := 2

/-- Process state: sleeping. -/
def PR_SLEEP : Nat := 3

/-- Process state: waiting. -/
def PR_WAIT : Nat := 4

/-- Process state: suspended. -/
def PR_SUSP : Nat := 5

/-- One row of the external process table (only the fields the core
reads: state and priority). -/
structure Proc where
  pstate : Nat
  pprio : Nat
deriving DecidableEq

/-- External kernel state threaded through policy operations: the process
table, the current pid and the need_resched flag. -/
structure Kern where
  proctab : List Proc
  currpid : Int
  need_resched : Bool
deriving DecidableEq

/-- Read a process-table row (negative pids, which the C would index out
of bounds, read a zeroed row; the policies guard pids to [0, NPROC)
before every dereference that matters to the claims). -/
def getProc (k : Kern) (pid : Int) : Proc :=
  if pid < 0 then ⟨0, 0⟩ else k.proctab.getD pid.toNat ⟨0, 0⟩

/-- Write a process-table row. -/
def setProc (k : Kern) (pid : Int) (f : Proc → Proc) : Kern :=
  if pid < 0 then k
  else {k with proctab := k.proctab.set pid.toNat (f (getProc k pid))}

/-- PRIORITY_MAX from scheduler.h. -/
def PRIORITY_MAX : Nat := 99

/-- PRIORITY_DEFAULT from scheduler.h. -/
def PRIORITY_DEFAULT : Nat := 50

/-! ## Round-robin scheduler (src/unnamed/part_001, round-robin section;
header src/unnamed/part_003) -/

/-- RR_DEFAULT_QUANTUM from round_robin.h. -/
def RR_DEFAULT_QUANTUM : Nat := 10

/-- RR_MIN_QUANTUM from round_robin.h. -/
def RR_MIN_QUANTUM : Nat := 1

/-- RR_MAX_QUANTUM from round_robin.h. -/
def RR_MAX_QUANTUM : Nat := 100

/-- rr_node_t (the circular links are the list order). -/
structure RRNode where
  pid : Int
  time_remaining : Nat
  total_time : Nat
  rounds : Nat
deriving DecidableEq

/-- File-static state of the round-robin policy.  The circular queue is
the list read from rr_queue_head; rr_current is tracked by pid (node
values in the queue have pairwise distinct pids in every reachable
state, so this coincides with pointer identity). -/
structure RRState where
  queue : List RRNode
  current : Option Int
  freeNodes : Nat
  count : Nat
  quantum : Nat
  quantum_remaining : Nat
  statTotalProcesses : Nat
  statTotalContextSwitches : Nat
  statTotalQuantumExpires : Nat
  statAvgWaitTime : Nat
  statCurrentQueueLength : Nat
  statMaxQueueLength : Nat
  ctxLog : List (Int × Int)
deriving DecidableEq

/-- rr_find_node: first node with the given pid. -/
def findRRNode (l : List RRNode) (pid : Int) : Option RRNode :=
  match l with
  | [] => none
  | n :: ns => if n.pid = pid then some n else findRRNode ns pid

/-- Unlink the first node with the given pid. -/
def removeRRNode (pid : Int) : List RRNode → List RRNode
  | [] => []
  | n :: ns => if n.pid = pid then ns else n :: removeRRNode pid ns

/-- Pid of the cyclic successor of the first node with the given pid
(the node->next read of round_robin_dequeue, taken before unlinking). -/
def cyclicSuccPid (l : List RRNode) (pid : Int) : Option Int :=
  match l.findIdx? (fun n => n.pid = pid) with
  | none => none
  | some i => (l.getD ((i + 1) % l.length) ⟨-1, 0, 0, 0⟩).pid

/-- round_robin_init. -/
def round_robin_init : RRState :=
  { queue := [], current := none, freeNodes := NPROC, count := 0,
    quantum := RR_DEFAULT_QUANTUM, quantum_remaining := RR_DEFAULT_QUANTUM,
    statTotalProcesses := 0, statTotalContextSwitches := 0,
    statTotalQuantumExpires := 0, statAvgWaitTime := 0,
    statCurrentQueueLength := 0, statMaxQueueLength := 0, ctxLog := [] }

/-- round_robin_shutdown: clear the queue without returning nodes to the
pool (as in the source). -/
def round_robin_shutdown (s : RRState) : RRState :=
  {s with queue := [], current := none, count := 0}

/-- round_robin_enqueue: append at the tail of the circular queue. -/
def round_robin_enqueue (s : RRState) (pid : Int) : RRState :=
  if pid < 0 ∨ pid ≥ (NPROC : Int) then s
  else if (findRRNode s.queue pid).isSome then s
  else if s.freeNodes = 0 then s
  else
    let node : RRNode := { pid := pid, time_remaining := s.quantum,
                           total_time := 0, rounds := 0 }
    let s :=
      match s.queue with
      | [] => {s with queue := [node], current := some pid}
      | _ => {s with queue := s.queue ++ [node]}
    let count := s.count + 1
    { s with freeNodes := s.freeNodes - 1, count := count,
             statTotalProcesses := s.statTotalProcesses + 1,
             statMaxQueueLength := if count > s.statMaxQueueLength then count
                                   else s.statMaxQueueLength,
             statCurrentQueueLength := count }

/-- round_robin_dequeue. -/
def round_robin_dequeue (s : RRState) (pid : Int) : RRState :=
  if pid < 0 ∨ pid ≥ (NPROC : Int) then s
  else
    match findRRNode s.queue pid with
    | none => s
    | some _ =>
      let s :=
        if s.queue.length = 1 then {s with queue := [], current := none}
        else
          let succ := cyclicSuccPid s.queue pid
          let s := {s with queue := removeRRNode pid s.queue}
          if s.current = some pid then {s with current := succ} else s
      { s with count := s.count - 1,
               statCurrentQueueLength := s.count - 1,
               freeNodes := s.freeNodes + 1 }

/-! ## Priority scheduler (src/unnamed/part_005; header src/unnamed/part_006) -/

/-- Modelled from the spec: the compile-time tunables PRIO_AGING_ENABLED,
PRIO_AGING_INTERVAL, PRIO_AGING_AMOUNT, PRIO_STARVATION_THRESHOLD and
PRIO_STARVATION_BOOST live in a header not under src/.  The spec fixes
their roles (aging adds the aging amount every interval ticks; a node
waiting longer than the threshold gets the starvation boost and its wait
resets) but not their values, so they are carried as parameters. -/
structure PrioCfg where
  agingEnabled : Bool
  agingInterval : Nat
  agingAmount : Nat
  starvationThreshold : Nat
  starvationBoost : Nat
deriving DecidableEq

/-- prio_node_t (singly linked; list order is link order). -/
structure PNode where
  pid : Int
  base_priority : Nat
  current_priority : Nat
  wait_time : Nat
  last_run : Nat
  cpu_burst : Nat
  io_bound : Bool
deriving DecidableEq

/-- File-static state of the priority policy. -/
structure PrioState where
  queue : List PNode
  freeNodes : Nat
  count : Nat
  agingEnabled : Bool
  agingInterval : Nat
  agingCounter : Nat
  ticks : Nat
  statTotalSchedules : Nat
  statContextSwitches : Nat
  statPriorityChanges : Nat
  statAgingBoosts : Nat
  statStarvationBoosts : Nat
  statPreemptions : Nat
  statCurrentQueueLength : Nat
  statAvgWaitTime : Nat
  ctxLog : List (Int × Int)
deriving DecidableEq

/-- prio_find_node: first node with the given pid. -/
def findPNode (l : List PNode) (pid : Int) : Option PNode :=
  match l with
  | [] => none
  | n :: ns => if n.pid = pid then some n else findPNode ns pid

/-- Unlink the first node with the given pid. -/
def removePNode (pid : Int) : List PNode → List PNode
  | [] => []
  | n :: ns => if n.pid = pid then ns else n :: removePNode pid ns

/-- Insertion walk of priority_insert_ordered: skip past every node whose
current_priority is at least the new node's. -/
def insertPrio (node : PNode) : List PNode → List PNode
  | [] => [node]
  | x :: xs =>
    if x.current_priority ≥ node.current_priority then x :: insertPrio node xs
    else node :: x :: xs

/-- priority_init (the aging switches start from the modelled compile-time
configuration). -/
def priority_init (cfg : PrioCfg) : PrioState :=
  { queue := [], freeNodes := NPROC, count := 0,
    agingEnabled := cfg.agingEnabled, agingInterval := cfg.agingInterval,
    agingCounter := 0, ticks := 0,
    statTotalSchedules := 0, statContextSwitches := 0, statPriorityChanges := 0,
    statAgingBoosts := 0, statStarvationBoosts := 0, statPreemptions := 0,
    statCurrentQueueLength := 0, statAvgWaitTime := 0, ctxLog := [] }

/-- priority_shutdown: clear the queue without returning nodes. -/
def priority_shutdown (s : PrioState) : PrioState :=
  {s with queue := [], count := 0}

/-- priority_insert_ordered. -/
def priority_insert_ordered (k : Kern) (s : PrioState) (pid : Int) : PrioState :=
  if s.freeNodes = 0 then s
  else
    let node : PNode :=
      { pid := pid, base_priority := (getProc k pid).pprio,
        current_priority := (getProc k pid).pprio, wait_time := 0,
        last_run := s.ticks, cpu_burst := 0, io_bound := false }
    { s with queue := insertPrio node s.queue, freeNodes := s.freeNodes - 1,
             count := s.count + 1, statCurrentQueueLength := s.count + 1 }

/-- priority_enqueue. -/
def priority_enqueue (k : Kern) (s : PrioState) (pid : Int) : PrioState :=
  if pid < 0 ∨ pid ≥ (NPROC : Int) then s
  else if (findPNode s.queue pid).isSome then s
  else priority_insert_ordered k s pid

/-- priority_dequeue. -/
def priority_dequeue (s : PrioState) (pid : Int) : PrioState :=
  if pid < 0 ∨ pid ≥ (NPROC : Int) then s
  else
    match findPNode s.queue pid with
    | none => s
    | some _ =>
      { s with queue := removePNode pid s.queue, count := s.count - 1,
               statCurrentQueueLength := s.count - 1,
               freeNodes := s.freeNodes + 1 }

/-- priority_pick_next. -/
def priority_pick_next (s : PrioState) : Int :=
  match s.queue with
  | [] => -1
  | n :: _ => n.pid

/-- priority_set: clamp, update the process table, and re-insert the
node with a fresh node carrying the new priority. -/
def priority_set (k : Kern) (s : PrioState) (pid : Int) (priority : Nat) :
    Kern × PrioState :=
  if pid < 0 ∨ pid ≥ (NPROC : Int) then (k, s)
  else
    let priority := if priority > PRIORITY_MAX then PRIORITY_MAX else priority
    let k := setProc k pid (fun p => {p with pprio := priority})
    let s :=
      match findPNode s.queue pid with
      | none => s
      | some _ =>
        let s := { s with queue := removePNode pid s.queue, count := s.count - 1 }
        priority_insert_ordered k s pid
    let s := {s with statPriorityChanges := s.statPriorityChanges + 1}
    let k :=
      if (getProc k pid).pstate = PR_READY ∨ pid = k.currpid then
        {k with need_resched := true}
      else k
    (k, s)

/-- Aging walk of priority_age_all, returning the aged queue and the
number of aging boosts granted. -/
def ageWalk (amount : Nat) : List PNode → List PNode × Nat
  | [] => ([], 0)
  | n :: ns =>
    let p := ageWalk amount ns
    if n.current_priority < PRIORITY_MAX then
      let c := n.current_priority + amount
      let c := if c > PRIORITY_MAX then PRIORITY_MAX else c
      ({n with current_priority := c} :: p.1, p.2 + 1)
    else (n :: p.1, p.2)

/-- priority_age_all. -/
def priority_age_all (cfg : PrioCfg) (s : PrioState) : PrioState :=
  if ¬ s.agingEnabled then s
  else
    let p := ageWalk cfg.agingAmount s.queue
    {s with queue := p.1, statAgingBoosts := s.statAgingBoosts + p.2}

/-- Starvation walk of priority_check_starvation: boost in place any node
waiting past the threshold; the list order is not repaired. -/
def starvationWalk (threshold boost : Nat) : List PNode → List PNode × Nat
  | [] => ([], 0)
  | n :: ns =>
    let p := starvationWalk threshold boost ns
    if n.wait_time > threshold then
      let c := n.current_priority + boost
      let c := if c > PRIORITY_MAX then PRIORITY_MAX else c
      ({n with current_priority := c, wait_time := 0} :: p.1, p.2 + 1)
    else (n :: p.1, p.2)

/-- priority_check_starvation. -/
def priority_check_starvation (cfg : PrioCfg) (s : PrioState) : PrioState :=
  let p := starvationWalk cfg.starvationThreshold cfg.starvationBoost s.queue
  {s with queue := p.1, statStarvationBoosts := s.statStarvationBoosts + p.2}

/-- priority_tick: bump waits, run aging on its interval, run the
starvation guard, raise need_resched on priority inversion. -/
def priority_tick (cfg : PrioCfg) (k : Kern) (s : PrioState) : Kern × PrioState :=
  let s := {s with ticks := s.ticks + 1}
  let s := {s with queue := s.queue.map (fun n : PNode => {n with wait_time := n.wait_time + 1})}
  let s :=
    if s.agingEnabled then
      let s := {s with agingCounter := s.agingCounter + 1}
      if s.agingCounter ≥ s.agingInterval then
        let s := priority_age_all cfg s
        {s with agingCounter := 0}
      else s
    else s
  let s := priority_check_starvation cfg s
  let k :=
    match s.queue with
    | [] => k
    | top :: _ =>
      if k.currpid ≥ 0 ∧ (getProc k top.pid).pprio > (getProc k k.currpid).pprio then
        {k with need_resched := true}
      else k
  (k, s)

/-- Reset of the chosen node's wait_time and last_run inside
priority_schedule. -/
def replacePNodeWait (pid : Int) (ticks : Nat) : List PNode → List PNode
  | [] => []
  | n :: ns =>
    if n.pid = pid then {n with wait_time := 0, last_run := ticks} :: ns
    else n :: replacePNodeWait pid ticks ns

/-- priority_schedule. -/
def priority_schedule (k : Kern) (s : PrioState) : Kern × PrioState :=
  let s := {s with statTotalSchedules := s.statTotalSchedules + 1}
  let next_pid := priority_pick_next s
  if next_pid < 0 then (k, s)
  else if next_pid = k.currpid then (k, s)
  else
    let old_pid := k.currpid
    let k :=
      if (getProc k old_pid).pstate = PR_CURR then
        setProc k old_pid (fun p => {p with pstate := PR_READY})
      else k
    let k := setProc k next_pid (fun p => {p with pstate := PR_CURR})
    let k := {k with currpid := next_pid}
    let s :=
      match findPNode s.queue next_pid with
      | none => s
      | some node =>
        { s with statAvgWaitTime := (s.statAvgWaitTime + node.wait_time) / 2,
                 queue := replacePNodeWait next_pid s.ticks s.queue }
    let s := priority_dequeue s next_pid
    let s := {s with statContextSwitches := s.statContextSwitches + 1,
                     ctxLog := (old_pid, next_pid) :: s.ctxLog}
    (k, s)

/-- priority_yield. -/
def priority_yield (k : Kern) (s : PrioState) : Kern × PrioState :=
  let ks :=
    if (getProc k k.currpid).pstate = PR_CURR then
      (setProc k k.currpid (fun p => {p with pstate := PR_READY}),
       priority_enqueue k s k.currpid)
    else (k, s)
  priority_schedule ks.1 ks.2

/-- priority_preempt. -/
def priority_preempt (k : Kern) (s : PrioState) : Kern × PrioState :=
  let s := {s with statPreemptions := s.statPreemptions + 1}
  let ks :=
    if (getProc k k.currpid).pstate = PR_CURR then
      (setProc k k.currpid (fun p => {p with pstate := PR_READY}),
       priority_enqueue k s k.currpid)
    else (k, s)
  priority_schedule ks.1 ks.2

/-- Adjacent-pair descending-order check of priority_validate. -/
def prioOrderOk : List PNode → Bool
  | [] => true
  | [_] => true
  | a :: b :: rest => decide (b.current_priority ≤ a.current_priority) && prioOrderOk (b :: rest)

/-- Pid range check of priority_validate. -/
def prioPidsOk (l : List PNode) : Bool :=
  l.all (fun n => decide (0 ≤ n.pid) && decide (n.pid < (NPROC : Int)))

/-- priority_validate: the conjunction of the checks of the source walk
(pid ranges, descending current_priority, stored count). -/
def priority_validate (s : PrioState) : Bool :=
  prioPidsOk s.queue && prioOrderOk s.queue &&
  decide (s.queue.length = s.count) && decide (s.queue.length ≤ NPROC)

/-! ## Multi-level feedback queue (src/multilevel_queue.c, header
src/unnamed/part_004) -/

/-- MLFQ_NUM_LEVELS from multilevel_queue.h. -/
def MLFQ_NUM_LEVELS : Nat := 8

/-- MLFQ_BOOST_INTERVAL from multilevel_queue.h. -/
def MLFQ_BOOST_INTERVAL : Nat := 1000

/-- MLFQ_IO_BONUS_LEVELS from multilevel_queue.h. -/
def MLFQ_IO_BONUS_LEVELS : Nat := 2

/-- Modelled from the spec: the MLFQ_Qk_QUANTUM constants live in a header
not under src/; the spec fixes level k's quantum as 2 * 2^k
(2, 4, 8, 16, 32, 64, 128, 256). -/
def mlfq_level_quantums : List Nat := [2, 4, 8, 16, 32, 64, 128, 256]

/-- mlfq_node_t (queue membership and position are the list structure). -/
structure MNode where
  pid : Int
  level : Nat
  time_allotment : Nat
  time_used : Nat
  arrival_time : Nat
  io_count : Nat
deriving DecidableEq

/-- File-static state of the MLFQ policy.  Each mlfq_queue_t is a list
plus its count field; the per-queue quantum and allotment mirrors of
level_quantums/level_allotments are kept once.  current_node is tracked
by pid (pids are unique across the queues in reachable states). -/
structure MlfqState where
  queues : List (List MNode)
  queueCounts : List Nat
  freeNodes : Nat
  levelQuantums : List Nat
  levelAllotments : List Nat
  boostEnabled : Bool
  boostInterval : Nat
  boostCounter : Nat
  ioBonusEnabled : Bool
  current : Option Int
  currentTimeUsed : Nat
  statTotalSchedules : Nat
  statContextSwitches : Nat
  statPromotions : Nat
  statDemotions : Nat
  statPriorityBoosts : Nat
  statIoBonuses : Nat
  statPerLevelCount : List Nat
  statPerLevelTime : List Nat
  ticks : Nat
  ctxLog : List (Int × Int)
deriving DecidableEq

/-- First node with the given pid in one queue. -/
def findMNode (l : List MNode) (pid : Int) : Option MNode :=
  match l with
  | [] => none
  | n :: ns => if n.pid = pid then some n else findMNode ns pid

/-- Unlink the first node with the given pid in one queue. -/
def removeMNode (pid : Int) : List MNode → List MNode
  | [] => []
  | n :: ns => if n.pid = pid then ns else n :: removeMNode pid ns

/-- Update the first node with the given pid in one queue. -/
def replaceMNode (pid : Int) (f : MNode → MNode) : List MNode → List MNode
  | [] => []
  | n :: ns => if n.pid = pid then f n :: ns else n :: replaceMNode pid f ns

/-- Search the levels in order (mlfq_find_node).  Modelled from the spec:
the out_level parameter of mlfq_find_node is never written in the source
(spec section 9 directs to treat it as intended to be populated), so the
search returns the level at which the node was found. -/
def mlfqFindFrom (qs : List (List MNode)) (pid : Int) (level : Nat) : Option (MNode × Nat) :=
  match qs with
  | [] => none
  | q :: rest =>
    match findMNode q pid with
    | some n => some (n, level)
    | none => mlfqFindFrom rest pid (level + 1)

/-- mlfq_find_node with its found level. -/
def mlfqFind (qs : List (List MNode)) (pid : Int) : Option (MNode × Nat) :=
  mlfqFindFrom qs pid 0

/-- Queue of one level. -/
def getQ (qs : List (List MNode)) (level : Nat) : List MNode := qs.getD level []

/-- mlfq_add_to_level: clamp the level, stamp it on the node, append at
the tail, bump the counts. -/
def mlfq_add_to_level (s : MlfqState) (node : MNode) (level : Nat) : MlfqState :=
  let level := if level ≥ MLFQ_NUM_LEVELS then MLFQ_NUM_LEVELS - 1 else level
  let node := {node with level := level}
  { s with queues := s.queues.set level (getQ s.queues level ++ [node]),
           queueCounts := s.queueCounts.set level (s.queueCounts.getD level 0 + 1),
           statPerLevelCount :=
             s.statPerLevelCount.set level (s.statPerLevelCount.getD level 0 + 1) }

/-- mlfq_remove_from_queue: unlink from the queue named by the node's own
level field, decrement the counts. -/
def mlfq_remove_from_queue (s : MlfqState) (node : MNode) : MlfqState :=
  let level := node.level
  { s with queues := s.queues.set level (removeMNode node.pid (getQ s.queues level)),
           queueCounts := s.queueCounts.set level (s.queueCounts.getD level 0 - 1),
           statPerLevelCount :=
             s.statPerLevelCount.set level (s.statPerLevelCount.getD level 0 - 1) }

/-- mlfq_init. -/
def mlfq_init : MlfqState :=
  { queues := List.replicate MLFQ_NUM_LEVELS [],
    queueCounts := List.replicate MLFQ_NUM_LEVELS 0,
    freeNodes := NPROC,
    levelQuantums := mlfq_level_quantums,
    levelAllotments := mlfq_level_quantums.map (· * 2),
    boostEnabled := true, boostInterval := MLFQ_BOOST_INTERVAL, boostCounter := 0,
    ioBonusEnabled := true, current := none, currentTimeUsed := 0,
    statTotalSchedules := 0, statContextSwitches := 0, statPromotions := 0,
    statDemotions := 0, statPriorityBoosts := 0, statIoBonuses := 0,
    statPerLevelCount := List.replicate MLFQ_NUM_LEVELS 0,
    statPerLevelTime := List.replicate MLFQ_NUM_LEVELS 0,
    ticks := 0, ctxLog := [] }

/-- mlfq_shutdown: clear the queues (nodes are not returned to the pool,
per-level count statistics are left as they were). -/
def mlfq_shutdown (s : MlfqState) : MlfqState :=
  { s with queues := List.replicate MLFQ_NUM_LEVELS [],
           queueCounts := List.replicate MLFQ_NUM_LEVELS 0,
           current := none }

/-- mlfq_enqueue: entry level from the process's priority band. -/
def mlfq_enqueue (k : Kern) (s : MlfqState) (pid : Int) : MlfqState :=
  if pid < 0 ∨ pid ≥ (NPROC : Int) then s
  else if (mlfqFind s.queues pid).isSome then s
  else if s.freeNodes = 0 then s
  else
    let pr := (getProc k pid).pprio
    let start_level := if pr ≥ 75 then 0 else if pr ≥ 50 then 2
                       else if pr ≥ 25 then 4 else 6
    let node : MNode :=
      { pid := pid, level := 0,
        time_allotment := s.levelAllotments.getD start_level 0,
        time_used := 0, arrival_time := s.ticks, io_count := 0 }
    mlfq_add_to_level {s with freeNodes := s.freeNodes - 1} node start_level

/-- mlfq_dequeue. -/
def mlfq_dequeue (s : MlfqState) (pid : Int) : MlfqState :=
  if pid < 0 ∨ pid ≥ (NPROC : Int) then s
  else
    match mlfqFind s.queues pid with
    | none => s
    | some nl =>
      let s := if s.current = some pid then {s with current := none} else s
      let s := mlfq_remove_from_queue s nl.1
      {s with freeNodes := s.freeNodes + 1}

/-- mlfq_pick_next: head of the lowest non-empty level. -/
def mlfqPickFrom : List (List MNode) → Int
  | [] => -1
  | q :: rest =>
    match q with
    | n :: _ => n.pid
    | [] => mlfqPickFrom rest

/-- mlfq_pick_next. -/
def mlfq_pick_next (s : MlfqState) : Int := mlfqPickFrom s.queues

/-- mlfq_move_to_level. -/
def mlfq_move_to_level (s : MlfqState) (pid : Int) (level : Nat) : MlfqState :=
  if pid < 0 ∨ pid ≥ (NPROC : Int) ∨ level ≥ MLFQ_NUM_LEVELS then s
  else
    match mlfqFind s.queues pid with
    | none => s
    | some nl =>
      let s := mlfq_remove_from_queue s nl.1
      let node := {nl.1 with time_allotment := s.levelAllotments.getD level 0,
                             time_used := 0, arrival_time := s.ticks}
      mlfq_add_to_level s node level

/-- mlfq_demote: at the bottom level refresh in place, otherwise move one
level down with fresh allotment and zero usage. -/
def mlfq_demote (s : MlfqState) (pid : Int) : MlfqState :=
  match mlfqFind s.queues pid with
  | none => s
  | some nl =>
    let node := nl.1
    let level := nl.2
    if level ≥ MLFQ_NUM_LEVELS - 1 then
      let refresh : MNode → MNode := fun n =>
        {n with time_used := 0, time_allotment := s.levelAllotments.getD level 0}
      let q := replaceMNode pid refresh (getQ s.queues level)
      {s with queues := s.queues.set level q}
    else
      let s := mlfq_remove_from_queue s node
      let level := level + 1
      let node := {node with time_allotment := s.levelAllotments.getD level 0,
                             time_used := 0, arrival_time := s.ticks}
      let s := mlfq_add_to_level s node level
      {s with statDemotions := s.statDemotions + 1}

/-- mlfq_promote. -/
def mlfq_promote (s : MlfqState) (pid : Int) : MlfqState :=
  match mlfqFind s.queues pid with
  | none => s
  | some nl =>
    let node := nl.1
    let level := nl.2
    if level = 0 then s
    else
      let s := mlfq_remove_from_queue s node
      let level := level - 1
      let node := {node with time_allotment := s.levelAllotments.getD level 0,
                             time_used := 0, arrival_time := s.ticks}
      let s := mlfq_add_to_level s node level
      {s with statPromotions := s.statPromotions + 1}

/-- mlfq_schedule. -/
def mlfq_schedule (k : Kern) (s : MlfqState) : Kern × MlfqState :=
  let s := {s with statTotalSchedules := s.statTotalSchedules + 1}
  let next_pid := mlfq_pick_next s
  if next_pid < 0 then (k, s)
  else
    match mlfqFind s.queues next_pid with
    | none => (k, s)
    | some nl =>
      if next_pid = k.currpid then (k, s)
      else
        let old_pid := k.currpid
        let k :=
          if (getProc k old_pid).pstate = PR_CURR then
            setProc k old_pid (fun p => {p with pstate := PR_READY})
          else k
        let k := setProc k next_pid (fun p => {p with pstate := PR_CURR})
        let k := {k with currpid := next_pid}
        let s := { s with current := some next_pid, currentTimeUsed := 0,
                          statContextSwitches := s.statContextSwitches + 1,
                          statPerLevelTime :=
                            s.statPerLevelTime.set nl.2 (s.statPerLevelTime.getD nl.2 0 + 1),
                          ctxLog := (old_pid, next_pid) :: s.ctxLog }
        (k, s)

/-- mlfq_preempt: charge the running node a full level quantum, then
demote it if its allotment is used up, otherwise rotate it to the tail of
its own level; finally reschedule.  (When the current pid is not found in
any queue the source would chase a dangling pointer; the embedding skips
the charge.) -/
def mlfq_preempt (k : Kern) (s : MlfqState) : Kern × MlfqState :=
  let s :=
    match s.current with
    | none => s
    | some pid =>
      match mlfqFind s.queues pid with
      | none => s
      | some nl =>
        let used := nl.1.time_used + s.levelQuantums.getD nl.1.level 0
        let node := {nl.1 with time_used := used}
        let q := replaceMNode pid (fun _ => node) (getQ s.queues nl.2)
        let s := {s with queues := s.queues.set nl.2 q}
        if node.time_used ≥ node.time_allotment then mlfq_demote s pid
        else
          let s := mlfq_remove_from_queue s node
          mlfq_add_to_level s node node.level
  let k :=
    if (getProc k k.currpid).pstate = PR_CURR then
      setProc k k.currpid (fun p => {p with pstate := PR_READY})
    else k
  let s := {s with current := none}
  mlfq_schedule k s

/-- mlfq_yield: count an I/O event on the yielder, clear its usage,
possibly grant the I/O promotion, then reschedule. -/
def mlfq_yield (k : Kern) (s : MlfqState) : Kern × MlfqState :=
  let s :=
    match s.current with
    | none => s
    | some pid =>
      match mlfqFind s.queues pid with
      | none => s
      | some nl =>
        let node := {nl.1 with io_count := nl.1.io_count + 1, time_used := 0}
        let q := replaceMNode pid (fun _ => node) (getQ s.queues nl.2)
        let s := {s with queues := s.queues.set nl.2 q}
        if s.ioBonusEnabled ∧ node.io_count > 5 then
          let s := mlfq_promote s pid
          let s :=
            match mlfqFind s.queues pid with
            | none => s
            | some nl2 =>
              let q2 := replaceMNode pid (fun n => {n with io_count := 0}) (getQ s.queues nl2.2)
              {s with queues := s.queues.set nl2.2 q2}
          {s with statIoBonuses := s.statIoBonuses + 1}
        else s
  let k :=
    if (getProc k k.currpid).pstate = PR_CURR then
      setProc k k.currpid (fun p => {p with pstate := PR_READY})
    else k
  let s := {s with current := none}
  mlfq_schedule k s

/-- Movement of one level's queue to level 0 inside mlfq_priority_boost. -/
def mlfqBoostLevel (s : MlfqState) (level : Nat) : MlfqState :=
  let moved := (getQ s.queues level).map (fun n =>
    { n with level := 0, time_allotment := s.levelAllotments.getD 0 0,
             time_used := 0, arrival_time := s.ticks })
  let n := (getQ s.queues level).length
  { s with queues := (s.queues.set level []).set 0 (getQ s.queues 0 ++ moved),
           queueCounts := (s.queueCounts.set level (s.queueCounts.getD level 0 - n)).set 0
             (s.queueCounts.getD 0 0 + n),
           statPerLevelCount :=
             (s.statPerLevelCount.set level (s.statPerLevelCount.getD level 0 - n)).set 0
               (s.statPerLevelCount.getD 0 0 + n) }

/-- mlfq_priority_boost: move every task at levels 1..7 to level 0 with
fresh state. -/
def mlfq_priority_boost (s : MlfqState) : MlfqState :=
  let s := (List.range (MLFQ_NUM_LEVELS - 1)).foldl
    (fun s i => mlfqBoostLevel s (i + 1)) s
  {s with statPriorityBoosts := s.statPriorityBoosts + 1}

/-- mlfq_tick. -/
def mlfq_tick (k : Kern) (s : MlfqState) : Kern × MlfqState :=
  let s := {s with ticks := s.ticks + 1, currentTimeUsed := s.currentTimeUsed + 1}
  let ks :=
    match s.current with
    | none => (k, s)
    | some pid =>
      match mlfqFind s.queues pid with
      | none => (k, s)
      | some nl =>
        let s := {s with statPerLevelTime :=
          s.statPerLevelTime.set nl.1.level (s.statPerLevelTime.getD nl.1.level 0 + 1)}
        let quantum := s.levelQuantums.getD nl.1.level 0
        if s.currentTimeUsed ≥ quantum then ({k with need_resched := true}, s)
        else (k, s)
  let k := ks.1
  let s := ks.2
  if s.boostEnabled then
    let s := {s with boostCounter := s.boostCounter + 1}
    if s.boostCounter ≥ s.boostInterval then
      (k, {mlfq_priority_boost s with boostCounter := 0})
    else (k, s)
  else (k, s)

/-! ## Real-time scheduler (src/unnamed/part_002, header src/realtime.h)

The rt_task_t record carries a single next pointer that is threaded in
turn through the free list, the all_tasks list and the ready queue, so
list-by-value modelling would be unfaithful.  The embedding keeps the
task_pool as an indexed heap of slots; every chain walk carries fuel equal
to the pool size (a C walk over the 64-slot pool visits at most 64 nodes
when the chains are acyclic, which holds in the states the claims use). -/

/-- RT_MAX_TASKS from realtime.h. -/
def RT_MAX_TASKS : Nat := 64

/-- rt_algorithm_t encodings in declaration order (realtime.h). -/
def RT_ALGO_EDF : Nat := 0

/-- Rate-monotonic algorithm code. -/
def RT_ALGO_RMS : Nat := 1

/-- Deadline-monotonic algorithm code. -/
def RT_ALGO_DMS : Nat := 2

/-- Least-laxity-first algorithm code. -/
def RT_ALGO_LLF : Nat := 3

/-- rt_miss_policy_t encodings in declaration order (realtime.h). -/
def RT_MISS_SKIP : Nat := 0

/-- Miss policy: keep running. -/
def RT_MISS_CONTINUE : Nat := 1

/-- Miss policy: abort the instance. -/
def RT_MISS_ABORT : Nat := 2

/-- Miss policy: log and keep running. -/
def RT_MISS_NOTIFY : Nat := 3

/-- rt_task_state_t encodings in declaration order (realtime.h). -/
def RT_STATE_INACTIVE : Nat := 0

/-- Task state: ready. -/
def RT_STATE_READY : Nat := 1

/-- Task state: running. -/
def RT_STATE_RUNNING : Nat := 2

/-- Task state: blocked. -/
def RT_STATE_BLOCKED : Nat := 3

/-- Task state: instance completed. -/
def RT_STATE_COMPLETED : Nat := 4

/-- Task state: deadline missed. -/
def RT_STATE_MISSED : Nat := 5

/-- RT_DEFAULT_PERIOD from realtime.h. -/
def RT_DEFAULT_PERIOD : Nat := 100

/-- RT_DEFAULT_DEADLINE from realtime.h. -/
def RT_DEFAULT_DEADLINE : Nat := 100

/-- RT_DEFAULT_WCET from realtime.h. -/
def RT_DEFAULT_WCET : Nat := 10

/-- INT64_MAX, the initial minimum of llf_pick_next. -/
def INT64_MAX : Int := 9223372036854775807

/-- rt_task_params_t. -/
structure RtParams where
  period : Nat
  deadline : Nat
  wcet : Nat
  phase : Nat
  miss_policy : Nat
deriving DecidableEq

/-- rt_task_t: one slot of the task pool; next is the single shared link
pointer, rendered as a pool index. -/
structure RtTask where
  pid : Int
  period : Nat
  deadline : Nat
  wcet : Nat
  phase : Nat
  miss_policy : Nat
  state : Nat
  release_time : Nat
  absolute_deadline : Nat
  remaining_time : Nat
  start_time : Nat
  instances : Nat
  completions : Nat
  deadline_misses : Nat
  total_response_time : Nat
  worst_response_time : Nat
  total_exec_time : Nat
  rms_priority : Nat
  laxity : Int
  next : Option Nat
deriving DecidableEq

/-- A zeroed task slot (the memset of alloc_task). -/
def rtZeroTask : RtTask :=
  { pid := 0, period := 0, deadline := 0, wcet := 0, phase := 0,
    miss_policy := 0, state := 0, release_time := 0, absolute_deadline := 0,
    remaining_time := 0, start_time := 0, instances := 0, completions := 0,
    deadline_misses := 0, total_response_time := 0, worst_response_time := 0,
    total_exec_time := 0, rms_priority := 0, laxity := 0, next := none }

/-- File-static state of the real-time policy (double-valued statistics
are computed on demand in the source and are omitted). -/
structure RtState where
  slots : List RtTask
  freeHead : Option Nat
  readyHead : Option Nat
  allHead : Option Nat
  currentIdx : Option Nat
  task_count : Nat
  current_algo : Nat
  system_time : Nat
  statReleases : Nat
  statCompletions : Nat
  statMisses : Nat
  statPreemptions : Nat
  statSwitches : Nat
  ctxLog : List (Int × Int)
deriving DecidableEq

/-- Read a pool slot. -/
def getSlot (s : RtState) (i : Nat) : RtTask := s.slots.getD i rtZeroTask

/-- Mutate a pool slot in place. -/
def updSlot (s : RtState) (i : Nat) (f : RtTask → RtTask) : RtState :=
  {s with slots := s.slots.set i (f (getSlot s i))}

/-- alloc_task: pop the free list and zero the slot. -/
def rt_alloc (s : RtState) : RtState × Option Nat :=
  match s.freeHead with
  | none => (s, none)
  | some i =>
    let s := {s with freeHead := (getSlot s i).next}
    (updSlot s i (fun _ => rtZeroTask), some i)

/-- free_task: push the slot on the free list. -/
def rt_free (s : RtState) (i : Nat) : RtState :=
  let s := updSlot s i (fun t => {t with next := s.freeHead})
  {s with freeHead := some i}

/-- find_task: fueled walk of the all_tasks chain by pid. -/
def chainFindPid (s : RtState) (fuel : Nat) (cur : Option Nat) (pid : Int) : Option Nat :=
  match fuel with
  | 0 => none
  | fuel + 1 =>
    match cur with
    | none => none
    | some i =>
      if (getSlot s i).pid = pid then some i
      else chainFindPid s fuel (getSlot s i).next pid

/-- find_task from the source. -/
def rt_find_task (s : RtState) (pid : Int) : Option Nat :=
  chainFindPid s s.slots.length s.allHead pid

/-- Insertion-point test of insert_ready for each algorithm (the switch
has no default, so an unknown algorithm never inserts early). -/
def rtInsertHere (algo : Nat) (task curr : RtTask) : Bool :=
  if algo = RT_ALGO_EDF then decide (task.absolute_deadline < curr.absolute_deadline)
  else if algo = RT_ALGO_RMS ∨ algo = RT_ALGO_DMS then
    decide (task.rms_priority > curr.rms_priority)
  else if algo = RT_ALGO_LLF then decide (task.laxity < curr.laxity)
  else false

/-- Walk of insert_ready locating the predecessor of the insertion point
(none means insert at the head). -/
def readyFindPrev (s : RtState) (fuel : Nat) (prev cur : Option Nat) (task : RtTask) :
    Option Nat :=
  match fuel with
  | 0 => prev
  | fuel + 1 =>
    match cur with
    | none => prev
    | some c =>
      if rtInsertHere s.current_algo task (getSlot s c) then prev
      else readyFindPrev s fuel (some c) (getSlot s c).next task

/-- insert_ready: mark READY and splice into the priority-ordered ready
chain. -/
def insert_ready (s : RtState) (i : Nat) : RtState :=
  let s := updSlot s i (fun t => {t with state := RT_STATE_READY})
  match s.readyHead with
  | none =>
    let s := updSlot s i (fun t => {t with next := none})
    {s with readyHead := some i}
  | some h =>
    match readyFindPrev s s.slots.length none (some h) (getSlot s i) with
    | none =>
      let s := updSlot s i (fun t => {t with next := s.readyHead})
      {s with readyHead := some i}
    | some p =>
      let s := updSlot s i (fun t => {t with next := (getSlot s p).next})
      updSlot s p (fun t => {t with next := some i})

/-- Unlink walk of remove_ready below the head. -/
def readyUnlinkWalk (s : RtState) (fuel : Nat) (p i : Nat) : RtState :=
  match fuel with
  | 0 => s
  | fuel + 1 =>
    match (getSlot s p).next with
    | none => s
    | some q =>
      if q = i then
        let s := updSlot s p (fun t => {t with next := (getSlot s i).next})
        updSlot s i (fun t => {t with next := none})
      else readyUnlinkWalk s fuel q i

/-- remove_ready. -/
def remove_ready (s : RtState) (i : Nat) : RtState :=
  match s.readyHead with
  | none => s
  | some h =>
    if h = i then
      let s := {s with readyHead := (getSlot s i).next}
      updSlot s i (fun t => {t with next := none})
    else readyUnlinkWalk s s.slots.length h i

/-- Laxity-refresh walk of llf_update_laxity over the all_tasks chain. -/
def llfWalk (s : RtState) (fuel : Nat) (cur : Option Nat) : RtState :=
  match fuel with
  | 0 => s
  | fuel + 1 =>
    match cur with
    | none => s
    | some i =>
      let s :=
        if (getSlot s i).state = RT_STATE_READY ∨ (getSlot s i).state = RT_STATE_RUNNING then
          updSlot s i (fun t =>
            {t with laxity := (t.absolute_deadline : Int) - (s.system_time : Int) -
                              (t.remaining_time : Int)})
        else s
      llfWalk s fuel (getSlot s i).next

/-- llf_update_laxity. -/
def llf_update_laxity (s : RtState) : RtState :=
  llfWalk s s.slots.length s.allHead

/-- Minimum-laxity scan of llf_pick_next over the ready chain. -/
def llfScan (s : RtState) (fuel : Nat) (cur : Option Nat) (best : Option Nat)
    (minLax : Int) : Option Nat :=
  match fuel with
  | 0 => best
  | fuel + 1 =>
    match cur with
    | none => best
    | some i =>
      let t := getSlot s i
      if t.state = RT_STATE_READY ∧ t.laxity < minLax then
        llfScan s fuel t.next (some i) t.laxity
      else llfScan s fuel t.next best minLax

/-- llf_pick_next (refreshes laxities first, a state effect). -/
def llf_pick_next (s : RtState) : RtState × Option Nat :=
  let s := llf_update_laxity s
  (s, llfScan s s.slots.length s.readyHead none INT64_MAX)

/-- realtime_check_preempt (in LLF mode it refreshes laxities, a state
effect). -/
def realtime_check_preempt (s : RtState) : RtState × Bool :=
  match s.currentIdx with
  | none => (s, s.readyHead.isSome)
  | some c =>
    match s.readyHead with
    | none => (s, false)
    | some r =>
      if s.current_algo = RT_ALGO_EDF then
        (s, decide ((getSlot s r).absolute_deadline < (getSlot s c).absolute_deadline))
      else if s.current_algo = RT_ALGO_RMS ∨ s.current_algo = RT_ALGO_DMS then
        (s, decide ((getSlot s r).rms_priority > (getSlot s c).rms_priority))
      else if s.current_algo = RT_ALGO_LLF then
        let s := llf_update_laxity s
        (s, decide ((getSlot s r).laxity < (getSlot s c).laxity))
      else (s, false)

/-- realtime_schedule. -/
def realtime_schedule (s : RtState) : RtState :=
  let pick : RtState × Option Nat :=
    if s.current_algo = RT_ALGO_LLF then llf_pick_next s else (s, s.readyHead)
  let s := pick.1
  match pick.2 with
  | none => {s with currentIdx := none}
  | some next =>
    let s := remove_ready s next
    if s.currentIdx = some next then s
    else
      let old_pid : Int :=
        match s.currentIdx with
        | some c => (getSlot s c).pid
        | none => -1
      let s :=
        match s.currentIdx with
        | some c =>
          if (getSlot s c).state = RT_STATE_RUNNING then
            let s := updSlot s c (fun t => {t with state := RT_STATE_READY})
            let s := insert_ready s c
            {s with statPreemptions := s.statPreemptions + 1}
          else s
        | none => s
      let s := {s with currentIdx := some next}
      let s := updSlot s next
        (fun t => {t with state := RT_STATE_RUNNING, start_time := s.system_time})
      let s := {s with statSwitches := s.statSwitches + 1}
      {s with ctxLog := (old_pid, (getSlot s next).pid) :: s.ctxLog}

/-- realtime_yield. -/
def realtime_yield (s : RtState) : RtState :=
  let s :=
    match s.currentIdx with
    | none => s
    | some c =>
      let elapsed := s.system_time - (getSlot s c).start_time
      let s := updSlot s c (fun t =>
        if elapsed < t.remaining_time then
          {t with remaining_time := t.remaining_time - elapsed}
        else {t with remaining_time := 0})
      let s := updSlot s c (fun t => {t with state := RT_STATE_READY})
      let s := insert_ready s c
      {s with currentIdx := none}
  realtime_schedule s

/-- realtime_preempt. -/
def realtime_preempt (s : RtState) : RtState := realtime_schedule s

/-- realtime_release: stamp release_time, absolute_deadline and the fresh
budget, enqueue, and preempt if the new task should run. -/
def realtime_release (s : RtState) (i : Nat) : RtState :=
  let s := updSlot s i (fun t =>
    { t with release_time := s.system_time,
             absolute_deadline := s.system_time + t.deadline,
             remaining_time := t.wcet,
             state := RT_STATE_READY,
             instances := t.instances + 1 })
  let s :=
    if s.current_algo = RT_ALGO_LLF then
      updSlot s i (fun t => {t with laxity := (t.deadline : Int) - (t.wcet : Int)})
    else s
  let s := insert_ready s i
  let s := {s with statReleases := s.statReleases + 1}
  let p := realtime_check_preempt s
  if p.2 then realtime_schedule p.1 else p.1

/-- realtime_complete (update_stats_completion only refreshes the
floating-point utilization and is a no-op here). -/
def realtime_complete (s : RtState) (pid : Int) : RtState :=
  match rt_find_task s pid with
  | none => s
  | some i =>
    let response := s.system_time - (getSlot s i).release_time
    let s := updSlot s i (fun t =>
      {t with total_response_time := t.total_response_time + response})
    let s := updSlot s i (fun t =>
      if response > t.worst_response_time then {t with worst_response_time := response}
      else t)
    let s := updSlot s i (fun t =>
      {t with total_exec_time := t.total_exec_time + (t.wcet - t.remaining_time)})
    let s := updSlot s i (fun t =>
      {t with state := RT_STATE_COMPLETED, completions := t.completions + 1})
    let s := {s with statCompletions := s.statCompletions + 1}
    let s := if s.currentIdx = some i then {s with currentIdx := none} else s
    let s := remove_ready s i
    realtime_schedule s

/-- realtime_check_deadline. -/
def realtime_check_deadline (s : RtState) (i : Nat) : Bool :=
  decide (s.system_time > (getSlot s i).absolute_deadline)

/-- realtime_handle_miss. -/
def realtime_handle_miss (s : RtState) (i : Nat) : RtState :=
  let s := updSlot s i (fun t =>
    {t with state := RT_STATE_MISSED, deadline_misses := t.deadline_misses + 1})
  let s := {s with statMisses := s.statMisses + 1}
  let pol := (getSlot s i).miss_policy
  if pol = RT_MISS_SKIP then remove_ready s i
  else if pol = RT_MISS_ABORT then
    let s := remove_ready s i
    if s.currentIdx = some i then {s with currentIdx := none} else s
  else s

/-- Deadline-check walk of realtime_check_deadlines (the successor is
re-read after handling a miss, exactly as the source does after
handle_miss may have rewritten the next pointer). -/
def deadlinesWalk (s : RtState) (fuel : Nat) (cur : Option Nat) : RtState :=
  match fuel with
  | 0 => s
  | fuel + 1 =>
    match cur with
    | none => s
    | some i =>
      let s :=
        if ((getSlot s i).state = RT_STATE_READY ∨ (getSlot s i).state = RT_STATE_RUNNING) ∧
            realtime_check_deadline s i then
          realtime_handle_miss s i
        else s
      deadlinesWalk s fuel (getSlot s i).next

/-- realtime_check_deadlines. -/
def realtime_check_deadlines (s : RtState) : RtState :=
  deadlinesWalk s s.slots.length s.allHead

/-- Release-check walk of realtime_check_releases (again the successor is
re-read after a release may have respliced the chain). -/
def releasesWalk (s : RtState) (fuel : Nat) (cur : Option Nat) : RtState :=
  match fuel with
  | 0 => s
  | fuel + 1 =>
    match cur with
    | none => s
    | some i =>
      let t := getSlot s i
      let s :=
        if (t.state = RT_STATE_COMPLETED ∨ t.state = RT_STATE_MISSED ∨
            t.state = RT_STATE_INACTIVE) ∧
            s.system_time ≥ t.release_time + t.period then
          realtime_release s i
        else s
      releasesWalk s fuel (getSlot s i).next

/-- realtime_check_releases. -/
def realtime_check_releases (s : RtState) : RtState :=
  releasesWalk s s.slots.length s.allHead

/-- Ready-queue rebuild walk of the LLF branch of realtime_tick. -/
def resortWalk (s : RtState) (fuel : Nat) (cur : Option Nat) : RtState :=
  match fuel with
  | 0 => s
  | fuel + 1 =>
    match cur with
    | none => s
    | some i =>
      let nxt := (getSlot s i).next
      let s := updSlot s i (fun t => {t with next := none})
      let s := insert_ready s i
      resortWalk s fuel nxt

/-- realtime_tick. -/
def realtime_tick (s : RtState) : RtState :=
  let s := {s with system_time := s.system_time + 1}
  let s :=
    match s.currentIdx with
    | none => s
    | some c =>
      if (getSlot s c).state = RT_STATE_RUNNING then
        let s := updSlot s c (fun t =>
          if t.remaining_time > 0 then {t with remaining_time := t.remaining_time - 1}
          else t)
        if (getSlot s c).remaining_time = 0 then realtime_complete s (getSlot s c).pid
        else s
      else s
  let s := realtime_check_deadlines s
  let s := realtime_check_releases s
  let s :=
    if s.current_algo = RT_ALGO_LLF then
      let s := llf_update_laxity s
      let old := s.readyHead
      let s := {s with readyHead := none}
      resortWalk s s.slots.length old
    else s
  let p := realtime_check_preempt s
  if p.2 then realtime_schedule p.1 else p.1

/-- Collection loop of rms/dms_assign_priorities (traversal order of the
all_tasks chain, bounded by the pool size). -/
def rtCollect (s : RtState) (fuel : Nat) (cur : Option Nat) : List Nat :=
  match fuel with
  | 0 => []
  | fuel + 1 =>
    match cur with
    | none => []
    | some i => i :: rtCollect s fuel (getSlot s i).next

/-- One adjacent-swap pass of the bubble sort (strict key comparison, so
the sort is stable as in the source). -/
def rtBubblePass (s : RtState) (key : RtTask → Nat) : List Nat → List Nat
  | a :: b :: rest =>
    if key (getSlot s a) > key (getSlot s b) then b :: rtBubblePass s key (a :: rest)
    else a :: rtBubblePass s key (b :: rest)
  | l => l

/-- The n-1 bubble passes of the source sort (full passes compute the
same permutation as the source's shrinking passes). -/
def rtBubbleSort (s : RtState) (key : RtTask → Nat) (l : List Nat) : List Nat :=
  (List.range (l.length - 1)).foldl (fun acc _ => rtBubblePass s key acc) l

/-- Priority assignment shared by rms/dms_assign_priorities:
sorted[i].rms_priority := count - i. -/
def rtAssignPrios (s : RtState) (key : RtTask → Nat) : RtState :=
  let collected := rtCollect s s.slots.length s.allHead
  let sorted := rtBubbleSort s key collected
  (List.range sorted.length).foldl
    (fun s j => updSlot s (sorted.getD j 0)
      (fun t => {t with rms_priority := sorted.length - j})) s

/-- rms_assign_priorities. -/
def rms_assign_priorities (s : RtState) : RtState :=
  rtAssignPrios s (fun t => t.period)

/-- dms_assign_priorities. -/
def dms_assign_priorities (s : RtState) : RtState :=
  rtAssignPrios s (fun t => t.deadline)

/-- realtime_create_task. -/
def realtime_create_task (s : RtState) (pid : Int) (params : RtParams) : RtState :=
  if (rt_find_task s pid).isSome then s
  else
    let pr := rt_alloc s
    match pr.2 with
    | none => s
    | some i =>
      let s := pr.1
      let s := updSlot s i (fun t =>
        { t with pid := pid, period := params.period, deadline := params.deadline,
                 wcet := params.wcet, phase := params.phase,
                 miss_policy := params.miss_policy, state := RT_STATE_INACTIVE,
                 remaining_time := params.wcet })
      let s := updSlot s i (fun t => {t with next := s.allHead})
      let s := {s with allHead := some i, task_count := s.task_count + 1}
      if s.current_algo = RT_ALGO_RMS then rms_assign_priorities s
      else if s.current_algo = RT_ALGO_DMS then dms_assign_priorities s
      else updSlot s i (fun t => {t with rms_priority := 1})

/-- realtime_set_params: overwrite the parameter block of an existing
task (release-derived fields are not recomputed). -/
def realtime_set_params (s : RtState) (pid : Int) (params : RtParams) : RtState :=
  match rt_find_task s pid with
  | none => s
  | some i =>
    let s := updSlot s i (fun t =>
      { t with period := params.period, deadline := params.deadline,
               wcet := params.wcet, phase := params.phase,
               miss_policy := params.miss_policy })
    if s.current_algo = RT_ALGO_RMS then rms_assign_priorities s
    else if s.current_algo = RT_ALGO_DMS then dms_assign_priorities s
    else s

/-- realtime_enqueue: create with default parameters on first sight, then
release unless already ready or running. -/
def realtime_enqueue (s : RtState) (pid : Int) : RtState :=
  let s :=
    if (rt_find_task s pid).isSome then s
    else realtime_create_task s pid
      ⟨RT_DEFAULT_PERIOD, RT_DEFAULT_DEADLINE, RT_DEFAULT_WCET, 0, RT_MISS_NOTIFY⟩
  match rt_find_task s pid with
  | none => s
  | some i =>
    let st := (getSlot s i).state
    if st ≠ RT_STATE_READY ∧ st ≠ RT_STATE_RUNNING then realtime_release s i else s

/-- realtime_init: a zeroed pool whose slots form the free chain in index
order. -/
def realtime_init : RtState :=
  { slots := (List.range RT_MAX_TASKS).map (fun i =>
      {rtZeroTask with next := if i + 1 < RT_MAX_TASKS then some (i + 1) else none}),
    freeHead := some 0, readyHead := none, allHead := none, currentIdx := none,
    task_count := 0, current_algo := RT_ALGO_EDF, system_time := 0,
    statReleases := 0, statCompletions := 0, statMisses := 0,
    statPreemptions := 0, statSwitches := 0, ctxLog := [] }

/-- Freeing walk of realtime_shutdown over the all_tasks chain. -/
def rtShutdownWalk (s : RtState) (fuel : Nat) (cur : Option Nat) : RtState :=
  match fuel with
  | 0 => s
  | fuel + 1 =>
    match cur with
    | none => s
    | some i =>
      let nxt := (getSlot s i).next
      let s := rt_free s i
      rtShutdownWalk s fuel nxt

/-- realtime_shutdown. -/
def realtime_shutdown (s : RtState) : RtState :=
  let s := rtShutdownWalk s s.slots.length s.allHead
  {s with readyHead := none, allHead := none, currentIdx := none, task_count := 0}

/-! ## Framework core (src/unnamed/part_001, scheduler section;
header src/unnamed/part_000) -/

/-- Modelled from the spec: the scheduler_type_t enumeration lives in a
kernel header not under src/; the six recognized policies are encoded
0..5 in declaration order and any other number is an unknown type. -/
def SCHEDULER_ROUND_ROBIN : Nat := 0

/-- Priority policy type code. -/
def SCHEDULER_PRIORITY : Nat := 1

/-- MLFQ policy type code. -/
def SCHEDULER_MLFQ : Nat := 2

/-- Lottery policy type code. -/
def SCHEDULER_LOTTERY : Nat := 3

/-- CFS policy type code. -/
def SCHEDULER_CFS : Nat := 4

/-- Real-time (EDF family) policy type code. -/
def SCHEDULER_EDF : Nat := 5

/-- Modelled from the spec: the SYSERR status of the missing kernel
header; only its distinctness from OK matters. -/
def SYSERR : Int := -1

/-- Modelled from the spec: the OK status of the missing kernel header. -/
def OK : Int := 1

/-- Framework globals touched by scheduler_switch, together with the six
policies' file-static states (the generic ready queue, statistics and
quantum globals are untouched by the switch path and omitted). -/
structure FrameworkState where
  current_scheduler : Option Nat
  sched_policy : Nat
  rr : RRState
  prio : PrioState
  mlfq : MlfqState
  lottery : LotteryState
  cfs : CfsState
  rt : RtState
deriving DecidableEq

/-- Dispatch of current_scheduler->shutdown() through the vtable. -/
def policyShutdown (s : FrameworkState) : FrameworkState :=
  match s.current_scheduler with
  | none => s
  | some tag =>
    if tag = SCHEDULER_ROUND_ROBIN then {s with rr := round_robin_shutdown s.rr}
    else if tag = SCHEDULER_PRIORITY then {s with prio := priority_shutdown s.prio}
    else if tag = SCHEDULER_MLFQ then {s with mlfq := mlfq_shutdown s.mlfq}
    else if tag = SCHEDULER_LOTTERY then {s with lottery := lottery_shutdown s.lottery}
    else if tag = SCHEDULER_CFS then {s with cfs := cfs_shutdown s.cfs}
    else if tag = SCHEDULER_EDF then {s with rt := realtime_shutdown s.rt}
    else s

/-- scheduler_switch from the framework: the current policy is shut down
before the type is examined; an unknown type then returns SYSERR with the
current-policy pointer and sched_policy untouched. -/
def scheduler_switch (cfg : PrioCfg) (s : FrameworkState) (type : Nat) :
    Int × FrameworkState :=
  let s := policyShutdown s
  if type = SCHEDULER_ROUND_ROBIN then
    (OK, {s with rr := round_robin_init,
                 current_scheduler := some type, sched_policy := type})
  else if type = SCHEDULER_PRIORITY then
    (OK, {s with prio := priority_init cfg,
                 current_scheduler := some type, sched_policy := type})
  else if type = SCHEDULER_MLFQ then
    (OK, {s with mlfq := mlfq_init,
                 current_scheduler := some type, sched_policy := type})
  else if type = SCHEDULER_LOTTERY then
    (OK, {s with lottery := lottery_init,
                 current_scheduler := some type, sched_policy := type})
  else if type = SCHEDULER_CFS then
    (OK, {s with cfs := cfs_init,
                 current_scheduler := some type, sched_policy := type})
  else if type = SCHEDULER_EDF then
    (OK, {s with rt := realtime_init,
                 current_scheduler := some type, sched_policy := type})
  else (SYSERR, s)

/-- scheduler_init from the framework: initialize the selected policy; an
unknown type falls back to the priority policy. -/
def scheduler_init (cfg : PrioCfg) (s : FrameworkState) (type : Nat) : FrameworkState :=
  let s := {s with sched_policy := type}
  if type = SCHEDULER_ROUND_ROBIN then
    {s with rr := round_robin_init, current_scheduler := some type}
  else if type = SCHEDULER_PRIORITY then
    {s with prio := priority_init cfg, current_scheduler := some type}
  else if type = SCHEDULER_MLFQ then
    {s with mlfq := mlfq_init, current_scheduler := some type}
  else if type = SCHEDULER_LOTTERY then
    {s with lottery := lottery_init, current_scheduler := some type}
  else if type = SCHEDULER_CFS then
    {s with cfs := cfs_init, current_scheduler := some type}
  else if type = SCHEDULER_EDF then
    {s with rt := realtime_init, current_scheduler := some type}
  else
    {s with prio := priority_init cfg, current_scheduler := some SCHEDULER_PRIORITY,
            sched_policy := SCHEDULER_PRIORITY}

/-! ## Claim-level invariants and concrete runs -/

/-- Per-task invariant of claim C8: once released,
absolute_deadline = release_time + deadline and remaining_time ≤ wcet. -/
abbrev rtTaskP (t : RtTask) : Prop :=
  t.absolute_deadline = t.release_time + t.deadline ∧ t.remaining_time ≤ t.wcet

/-- State invariant of claim C8 over the whole pool; instances ≥ 1 marks
the tasks that have been released at least once. -/
abbrev rtInv (s : RtState) : Prop :=
  ∀ t ∈ s.slots, 1 ≤ t.instances → rtTaskP t

/-- Configuration used by the concrete runs: aging off, interval 100,
amount 1, starvation threshold 3, starvation boost 10 (the compile-time
values are not under src/; the violation of claim C3 arises for every
boost of at least 2). -/
def prioCfg3 : PrioCfg :=
  { agingEnabled := false, agingInterval := 100, agingAmount := 1,
    starvationThreshold := 3, starvationBoost := 10 }

/-- Process table for the claim C3 run: pid 1 at priority 51, pid 2 at
priority 45, nobody running. -/
def kern3 : Kern :=
  { proctab := ((List.replicate NPROC (⟨PR_READY, 0⟩ : Proc)).set 1
      ⟨PR_READY, 51⟩).set 2 ⟨PR_READY, 45⟩,
    currpid := -1, need_resched := false }

/-- Claim C3 run: enqueue pid 2 (45), wait three ticks, enqueue pid 1
(51) at the head, then one more tick fires the starvation boost on the
tail node only. -/
def claim3_run : PrioState :=
  let k := kern3
  let s := priority_init prioCfg3
  let s := priority_enqueue k s 2
  let p1 := priority_tick prioCfg3 k s
  let p2 := priority_tick prioCfg3 p1.1 p1.2
  let p3 := priority_tick prioCfg3 p2.1 p2.2
  let s := priority_enqueue p3.1 p3.2 1
  (priority_tick prioCfg3 p3.1 s).2

/-- Process table for the claim C7 run: pid 1 at priority 75 (entry
level 0), nobody running. -/
def kern7 : Kern :=
  { proctab := (List.replicate NPROC (⟨PR_READY, 0⟩ : Proc)).set 1 ⟨PR_READY, 75⟩,
    currpid := -1, need_resched := false }

/-- Claim C7 run: enqueue pid 1, schedule it, then one timer tick while
it runs at level 0. -/
def claim7_run : MlfqState :=
  let s := mlfq_enqueue kern7 mlfq_init 1
  let p := mlfq_schedule kern7 s
  (mlfq_tick p.1 p.2).2

/-- Claim C8 run, first half: enqueue pid 5 under EDF, which creates the
task with default parameters (period 100, deadline 100, wcet 10) and
releases it at time 0. -/
def claim8_run1 : RtState := realtime_enqueue realtime_init 5

/-- Claim C8 run, second half: overwrite the released task's parameters
with deadline 50. -/
def claim8_run2 : RtState :=
  realtime_set_params claim8_run1 5 ⟨100, 50, 10, 0, RT_MISS_NOTIFY⟩

/-- Claim C9 round-trip run on round-robin: enqueue pid 1 into the fresh
policy and immediately dequeue it. -/
def claim9_rr_run : RRState :=
  round_robin_dequeue (round_robin_enqueue round_robin_init 1) 1

/-- Claim C4 witness state: participants 1 and 2 with 100 and 300 current
tickets, seed 1. -/
def claim4_state : LotteryState :=
  lottery_set_tickets (lottery_enqueue (lottery_enqueue lottery_init 1) 2) 2 300

/-- Claim C1 counterexample state: round-robin active with pid 1 queued,
the other policies freshly initialized. -/
def framework0 : FrameworkState :=
  { current_scheduler := some SCHEDULER_ROUND_ROBIN,
    sched_policy := SCHEDULER_ROUND_ROBIN,
    rr := round_robin_enqueue round_robin_init 1,
    prio := priority_init prioCfg3, mlfq := mlfq_init,
    lottery := lottery_init, cfs := cfs_init, rt := realtime_init }

/-- Claim C2 failing run: enqueue pid 1 (base 100 tickets) and apply
lottery_compensate with the valid fraction one half, whose uint32
compensation value is 100. -/
def claim2_run : LotteryState :=
  lottery_compensate (lottery_enqueue lottery_init 1) 1 true 100

/-- Claim C7 witness pre-state: pid 1 enqueued at the top level and
scheduled, so it is the running node with zero recorded usage. -/
def claim7_pre : MlfqState := (mlfq_schedule kern7 (mlfq_enqueue kern7 mlfq_init 1)).2

/-- Claim C7 witness node: pid 1 as it sits at level 0 in claim7_pre. -/
def claim7_node : MNode :=
  { pid := 1, level := 0, time_allotment := 4, time_used := 0,
    arrival_time := 0, io_count := 0 }

/-! ## Theorems -/

/-- W32 is positive. -/
theorem W32_pos : 0 < W32 := by norm_num [W32]

instance : NeZero W32 := ⟨by norm_num [W32]⟩

/-- Casting a 32-bit reduction into ZMod W32 is the identity. -/
theorem natCast_mod_W32 (a : Nat) : ((a % W32 : Nat) : ZMod W32) = (a : ZMod W32) :=
  ZMod.natCast_mod a W32

/-- add32 agrees with addition in ZMod W32. -/
theorem add32_cast (a b : Nat) : ((add32 a b : Nat) : ZMod W32) = (a : ZMod W32) + b := by
  simp [add32, natCast_mod_W32]

/-- sub32 agrees with subtraction in ZMod W32. -/
theorem sub32_cast (a b : Nat) : ((sub32 a b : Nat) : ZMod W32) = (a : ZMod W32) - b := by
  have hb : b % W32 ≤ W32 := le_of_lt (Nat.mod_lt _ W32_pos)
  unfold sub32
  rw [natCast_mod_W32, Nat.cast_add, natCast_mod_W32, Nat.cast_sub hb, natCast_mod_W32,
    ZMod.natCast_self]
  ring

/-- add32 yields a reduced value. -/
theorem add32_lt (a b : Nat) : add32 a b < W32 := Nat.mod_lt _ W32_pos

/-- sub32 yields a reduced value. -/
theorem sub32_lt (a b : Nat) : sub32 a b < W32 := Nat.mod_lt _ W32_pos

/-- Reduced values that agree in ZMod W32 are equal. -/
theorem eq_of_cast_eq_W32 {a b : Nat} (ha : a < W32) (hb : b < W32)
    (h : (a : ZMod W32) = (b : ZMod W32)) : a = b := by
  have := congrArg ZMod.val h
  rwa [ZMod.val_natCast_of_lt ha, ZMod.val_natCast_of_lt hb] at this

/-- Claim C5, counterexample: at six runnable tasks the code returns the
bare target latency 20, not max(20, 4*6) = 24 as the spec's formula
demands. -/
theorem claim5_counterexample :
    cfs_sched_latency 6 ≠ max CFS_TARGET_LATENCY (CFS_MIN_GRANULARITY * 6) := by decide

/-- Claim C5 (corrected): cfs_sched_latency returns TARGET_LATENCY
whenever nr_running ≤ 8 and MIN_GRANULARITY * nr_running otherwise; the
spec's max(TARGET_LATENCY, MIN_GRANULARITY * n) only coincides with this
outside n = 6, 7, 8. -/
theorem claim5_latency_amended (n : Nat) :
    cfs_sched_latency n =
      if n ≤ 8 then CFS_TARGET_LATENCY
      else max CFS_TARGET_LATENCY (CFS_MIN_GRANULARITY * n) := by
  unfold cfs_sched_latency CFS_TARGET_LATENCY CFS_MIN_GRANULARITY
  by_cases h : n ≤ 8
  · simp [Nat.not_lt.mpr h, h]
  · have h8 : 8 < n := Nat.lt_of_not_le h
    have h4 : 20 ≤ 4 * n := by omega
    simp [h8, h, Nat.max_eq_right h4]

/-- Claim C3, violation witness: starting from the initialized priority
policy, the operation sequence enqueue(2) (priority 45), three ticks,
enqueue(1) (priority 51), one tick drives the starvation guard to boost
only the waiting tail node in place, leaving the ready list
[51, 55] - not sorted descending - and priority_validate, the code's own
invariant checker, reports the corruption. -/
theorem claim3_starvation_breaks_order :
    claim3_run.queue.map PNode.current_priority = [51, 55] ∧
    priority_validate claim3_run = false := by decide

/-- Claim C7, counterexample: after mlfq_schedule picks pid 1 at level 0,
one mlfq_tick charges only the file-static current_time_used counter; the
node's time_used stays 0, so time_used is not charged per tick as the
claim states. -/
theorem claim7_counterexample :
    claim7_run.current = some 1 ∧ claim7_run.currentTimeUsed = 1 ∧
    (mlfqFind claim7_run.queues 1).map (fun nl => nl.1.time_used) = some 0 := by decide

/-- Claim C8, counterexample: pid 5 is created and released with deadline
100 at time 0, then realtime_set_params overwrites the deadline with 50
without recomputing absolute_deadline, so the released task violates
absolute_deadline = release_time + params.deadline. -/
theorem claim8_counterexample :
    1 ≤ (getSlot claim8_run2 0).instances ∧ ¬ rtTaskP (getSlot claim8_run2 0) := by decide

/-- Claim C9, counterexample: on round-robin, enqueue(1) followed by
dequeue(1) from the fresh state does not restore the statistics
(total_processes and max_queue_length remain incremented). -/
theorem claim9_counterexample : claim9_rr_run ≠ round_robin_init := by decide

/-- policyShutdown never moves the current-policy pointer. -/
theorem policyShutdown_current (s : FrameworkState) :
    (policyShutdown s).current_scheduler = s.current_scheduler := by
  unfold policyShutdown
  split
  · rfl
  · split_ifs <;> rfl

/-- policyShutdown never changes sched_policy. -/
theorem policyShutdown_policy (s : FrameworkState) :
    (policyShutdown s).sched_policy = s.sched_policy := by
  unfold policyShutdown
  split
  · rfl
  · split_ifs <;> rfl

/-- Claim C1, counterexample: with round-robin active and pid 1 queued,
scheduler_switch(99) returns SYSERR and leaves the current-policy pointer
in place, but the old policy's data structures are not intact: the
round-robin queue has been emptied by the shutdown that ran before the
type check. -/
theorem claim1_counterexample :
    (scheduler_switch prioCfg3 framework0 99).1 = SYSERR ∧
    (scheduler_switch prioCfg3 framework0 99).2.current_scheduler =
      framework0.current_scheduler ∧
    framework0.rr.queue ≠ [] ∧
    (scheduler_switch prioCfg3 framework0 99).2.rr.queue = [] := by decide

/-- Claim C1 (corrected): for every unknown scheduler type,
scheduler_switch returns SYSERR and leaves the current-policy pointer and
sched_policy unchanged, but the state is the one produced by shutting the
current policy down - the old policy's data structures are cleared, not
left intact. -/
theorem claim1_switch_unknown_amended (cfg : PrioCfg) (s : FrameworkState) (type : Nat)
    (h : SCHEDULER_EDF < type) :
    scheduler_switch cfg s type = (SYSERR, policyShutdown s) ∧
    (policyShutdown s).current_scheduler = s.current_scheduler ∧
    (policyShutdown s).sched_policy = s.sched_policy := by
  refine ⟨?_, policyShutdown_current s, policyShutdown_policy s⟩
  unfold SCHEDULER_EDF at h
  simp only [scheduler_switch, SCHEDULER_ROUND_ROBIN, SCHEDULER_PRIORITY, SCHEDULER_MLFQ,
    SCHEDULER_LOTTERY, SCHEDULER_CFS, SCHEDULER_EDF]
  rw [if_neg (by omega), if_neg (by omega), if_neg (by omega), if_neg (by omega),
    if_neg (by omega), if_neg (by omega)]

/-- Claim C1 witness: the amended statement applied to the concrete
counterexample state and type 99. -/
theorem claim1_witness :
    SCHEDULER_EDF < 99 ∧
    (scheduler_switch prioCfg3 framework0 99 = (SYSERR, policyShutdown framework0) ∧
     (policyShutdown framework0).current_scheduler = framework0.current_scheduler ∧
     (policyShutdown framework0).sched_policy = framework0.sched_policy) :=
  ⟨by decide, claim1_switch_unknown_amended prioCfg3 framework0 99 (by decide)⟩

/-- max64 dominates its first argument. -/
theorem max64_le_left (a b : Nat) : a ≤ max64 a b := by
  unfold max64; split <;> omega

/-- cfs_update_min_vruntime never decreases min_vruntime. -/
theorem cfs_update_min_vruntime_min (s : CfsState) :
    s.min_vruntime ≤ (cfs_update_min_vruntime s).min_vruntime :=
  max64_le_left _ _

/-- Transitive form of the previous lemma, convenient when the argument
state is a record literal. -/
theorem cfs_update_min_vruntime_min_le {a : Nat} (s : CfsState) (h : a ≤ s.min_vruntime) :
    a ≤ (cfs_update_min_vruntime s).min_vruntime :=
  le_trans h (cfs_update_min_vruntime_min s)

/-- cfs_update_min_vruntime leaves the switch statistic alone. -/
theorem cfs_update_min_vruntime_sw (s : CfsState) :
    (cfs_update_min_vruntime s).statSwitches = s.statSwitches := rfl

/-- cfs_update_min_vruntime leaves the context-switch log alone. -/
theorem cfs_update_min_vruntime_log (s : CfsState) :
    (cfs_update_min_vruntime s).ctxLog = s.ctxLog := rfl

/-- insert_task does not touch min_vruntime. -/
theorem insert_task_min (s : CfsState) (t : CfsTask) :
    (insert_task s t).min_vruntime = s.min_vruntime := by
  unfold insert_task
  split
  · rfl
  · dsimp only
    split <;> rfl

/-- insert_task does not touch the switch statistic. -/
theorem insert_task_sw (s : CfsState) (t : CfsTask) :
    (insert_task s t).statSwitches = s.statSwitches := by
  unfold insert_task
  split
  · rfl
  · dsimp only
    split <;> rfl

/-- insert_task does not touch the context-switch log. -/
theorem insert_task_log (s : CfsState) (t : CfsTask) :
    (insert_task s t).ctxLog = s.ctxLog := by
  unfold insert_task
  split
  · rfl
  · dsimp only
    split <;> rfl

/-- remove_task does not touch min_vruntime. -/
theorem remove_task_min (s : CfsState) (t : CfsTask) :
    ((remove_task s t).1).min_vruntime = s.min_vruntime := by
  unfold remove_task
  split <;> rfl

/-- remove_task does not touch the switch statistic. -/
theorem remove_task_sw (s : CfsState) (t : CfsTask) :
    ((remove_task s t).1).statSwitches = s.statSwitches := by
  unfold remove_task
  split <;> rfl

/-- remove_task does not touch the context-switch log. -/
theorem remove_task_log (s : CfsState) (t : CfsTask) :
    ((remove_task s t).1).ctxLog = s.ctxLog := by
  unfold remove_task
  split <;> rfl

/-- update_current never decreases min_vruntime. -/
theorem update_current_min (s : CfsState) :
    s.min_vruntime ≤ (update_current s).min_vruntime := by
  unfold update_current
  split
  · exact le_refl _
  · dsimp only
    split
    · exact le_refl _
    · exact cfs_update_min_vruntime_min_le _ (le_of_eq rfl)

/-- update_current leaves the switch statistic alone. -/
theorem update_current_sw (s : CfsState) :
    (update_current s).statSwitches = s.statSwitches := by
  unfold update_current
  split
  · rfl
  · dsimp only
    split <;> rfl

/-- update_current leaves the context-switch log alone. -/
theorem update_current_log (s : CfsState) :
    (update_current s).ctxLog = s.ctxLog := by
  unfold update_current
  split
  · rfl
  · dsimp only
    split <;> rfl

/-- Transitive form of update_current_min. -/
theorem update_current_min_le {a : Nat} (s : CfsState) (h : a ≤ s.min_vruntime) :
    a ≤ (update_current s).min_vruntime :=
  le_trans h (update_current_min s)

/-- cfs_put_prev_task never decreases min_vruntime. -/
theorem cfs_put_prev_task_min (s : CfsState) :
    s.min_vruntime ≤ (cfs_put_prev_task s).min_vruntime := by
  unfold cfs_put_prev_task
  split
  · exact le_refl _
  · dsimp only
    split
    · exact update_current_min _
    · dsimp only
      split
      · show s.min_vruntime ≤ (insert_task _ _).min_vruntime
        rw [insert_task_min, remove_task_min]
        exact update_current_min _
      · exact update_current_min _

/-- Transitive form of cfs_put_prev_task_min. -/
theorem cfs_put_prev_task_min_le {a : Nat} (s : CfsState) (h : a ≤ s.min_vruntime) :
    a ≤ (cfs_put_prev_task s).min_vruntime :=
  le_trans h (cfs_put_prev_task_min s)

/-- cfs_put_prev_task leaves the switch statistic alone. -/
theorem cfs_put_prev_task_sw (s : CfsState) :
    (cfs_put_prev_task s).statSwitches = s.statSwitches := by
  unfold cfs_put_prev_task
  split
  · rfl
  · dsimp only
    split
    · exact update_current_sw _
    · dsimp only
      split
      · show (insert_task _ _).statSwitches = _
        rw [insert_task_sw, remove_task_sw]
        exact update_current_sw _
      · exact update_current_sw _

/-- cfs_put_prev_task leaves the context-switch log alone. -/
theorem cfs_put_prev_task_log (s : CfsState) :
    (cfs_put_prev_task s).ctxLog = s.ctxLog := by
  unfold cfs_put_prev_task
  split
  · rfl
  · dsimp only
    split
    · exact update_current_log _
    · dsimp only
      split
      · show (insert_task _ _).ctxLog = _
        rw [insert_task_log, remove_task_log]
        exact update_current_log _
      · exact update_current_log _

/-- cfs_schedule leaves the context-switch log alone: the switch branch
is unreachable. -/
theorem cfs_schedule_log (s : CfsState) : (cfs_schedule s).ctxLog = s.ctxLog := by
  unfold cfs_schedule
  dsimp only
  cases hc : s.curr with
  | none =>
    dsimp only
    split
    · rw [cfs_put_prev_task_log]
    · rw [if_neg (fun h => h rfl)]
      show ((remove_task _ _).1).ctxLog = s.ctxLog
      rw [remove_task_log, cfs_put_prev_task_log]
  | some c =>
    dsimp only
    split
    · rw [cfs_put_prev_task_log, update_current_log]
    · rw [if_neg (fun h => h rfl)]
      show ((remove_task _ _).1).ctxLog = s.ctxLog
      rw [remove_task_log, cfs_put_prev_task_log, update_current_log]

/-- cfs_schedule leaves the switches statistic alone. -/
theorem cfs_schedule_sw (s : CfsState) : (cfs_schedule s).statSwitches = s.statSwitches := by
  unfold cfs_schedule
  dsimp only
  cases hc : s.curr with
  | none =>
    dsimp only
    split
    · rw [cfs_put_prev_task_sw]
    · rw [if_neg (fun h => h rfl)]
      show ((remove_task _ _).1).statSwitches = s.statSwitches
      rw [remove_task_sw, cfs_put_prev_task_sw]
  | some c =>
    dsimp only
    split
    · rw [cfs_put_prev_task_sw, update_current_sw]
    · rw [if_neg (fun h => h rfl)]
      show ((remove_task _ _).1).statSwitches = s.statSwitches
      rw [remove_task_sw, cfs_put_prev_task_sw, update_current_sw]

/-- Claim C10: cfs_schedule never invokes context_switch and never
increments the switches statistic, because the pid it compares against
the chosen task is read from cfs_rq.curr after cfs_set_curr_task has
already installed the chosen task, so the two pids always coincide and
the switch branch is unreachable. -/
theorem claim10_schedule_no_switch (s : CfsState) :
    (cfs_schedule s).ctxLog = s.ctxLog ∧
    (cfs_schedule s).statSwitches = s.statSwitches :=
  ⟨cfs_schedule_log s, cfs_schedule_sw s⟩

/-- cfs_schedule never decreases min_vruntime. -/
theorem cfs_schedule_min (s : CfsState) : s.min_vruntime ≤ (cfs_schedule s).min_vruntime := by
  unfold cfs_schedule
  dsimp only
  cases hc : s.curr with
  | none =>
    dsimp only
    split
    · exact cfs_put_prev_task_min_le _ (le_of_eq rfl)
    · rw [if_neg (fun h => h rfl)]
      show s.min_vruntime ≤ ((remove_task _ _).1).min_vruntime
      rw [remove_task_min]
      exact cfs_put_prev_task_min_le _ (le_of_eq rfl)
  | some c =>
    dsimp only
    split
    · exact cfs_put_prev_task_min_le _ (update_current_min_le _ (le_of_eq rfl))
    · rw [if_neg (fun h => h rfl)]
      show s.min_vruntime ≤ ((remove_task _ _).1).min_vruntime
      rw [remove_task_min]
      exact cfs_put_prev_task_min_le _ (update_current_min_le _ (le_of_eq rfl))

/-- Transitive form of cfs_schedule_min. -/
theorem cfs_schedule_min_le {a : Nat} (s : CfsState) (h : a ≤ s.min_vruntime) :
    a ≤ (cfs_schedule s).min_vruntime :=
  le_trans h (cfs_schedule_min s)

/-- cfs_tick never decreases min_vruntime. -/
theorem cfs_tick_min (s : CfsState) : s.min_vruntime ≤ (cfs_tick s).min_vruntime := by
  unfold cfs_tick
  dsimp only
  cases hc : s.curr with
  | none => exact le_of_eq rfl
  | some c =>
    dsimp only
    split
    · exact update_current_min_le _ (le_of_eq rfl)
    · split
      · split
        · exact cfs_schedule_min_le _ (update_current_min_le _ (le_of_eq rfl))
        · exact update_current_min_le _ (le_of_eq rfl)
      · exact update_current_min_le _ (le_of_eq rfl)

/-- cfs_yield never decreases min_vruntime. -/
theorem cfs_yield_min (s : CfsState) : s.min_vruntime ≤ (cfs_yield s).min_vruntime := by
  unfold cfs_yield
  cases hc : s.curr with
  | none => exact le_refl _
  | some c =>
    dsimp only
    split
    · exact update_current_min _
    · split
      · exact cfs_schedule_min_le _ (update_current_min_le _ (le_refl _))
      · exact cfs_schedule_min_le _ (update_current_min_le _ (le_refl _))

/-- cfs_preempt never decreases min_vruntime. -/
theorem cfs_preempt_min (s : CfsState) : s.min_vruntime ≤ (cfs_preempt s).min_vruntime :=
  cfs_schedule_min s

/-- cfs_enqueue never decreases min_vruntime. -/
theorem cfs_enqueue_min (s : CfsState) (pid : Int) :
    s.min_vruntime ≤ (cfs_enqueue s pid).min_vruntime := by
  unfold cfs_enqueue
  split
  · split
    · exact le_refl _
    · show s.min_vruntime ≤ (insert_task _ _).min_vruntime
      rw [insert_task_min]
  · split
    · exact le_refl _
    · show s.min_vruntime ≤ (insert_task _ _).min_vruntime
      rw [insert_task_min]

/-- cfs_dequeue never decreases min_vruntime. -/
theorem cfs_dequeue_min (s : CfsState) (pid : Int) :
    s.min_vruntime ≤ (cfs_dequeue s pid).min_vruntime := by
  unfold cfs_dequeue
  split
  · exact le_refl _
  · dsimp only
    split
    · split
      · refine cfs_update_min_vruntime_min_le _ ?_
        show s.min_vruntime ≤ ((remove_task _ _).1).min_vruntime
        rw [remove_task_min]
        exact update_current_min_le _ (le_refl _)
      · refine cfs_update_min_vruntime_min_le _ ?_
        show s.min_vruntime ≤ ((remove_task _ _).1).min_vruntime
        rw [remove_task_min]
    · split
      · exact cfs_update_min_vruntime_min_le _ (update_current_min_le _ (le_refl _))
      · exact cfs_update_min_vruntime_min_le _ (le_refl _)

/-- cfs_sleep never decreases min_vruntime. -/
theorem cfs_sleep_min (s : CfsState) (pid : Int) :
    s.min_vruntime ≤ (cfs_sleep s pid).min_vruntime := by
  unfold cfs_sleep
  split
  · exact le_refl _
  · dsimp only
    split
    · split
      · show s.min_vruntime ≤ ((remove_task _ _).1).min_vruntime
        rw [remove_task_min]
        exact update_current_min_le _ (le_of_eq rfl)
      · show s.min_vruntime ≤ ((remove_task _ _).1).min_vruntime
        rw [remove_task_min]
    · split
      · exact update_current_min_le _ (le_of_eq rfl)
      · exact le_of_eq rfl

/-- cfs_wakeup never decreases min_vruntime. -/
theorem cfs_wakeup_min (s : CfsState) (pid : Int) :
    s.min_vruntime ≤ (cfs_wakeup s pid).min_vruntime := by
  unfold cfs_wakeup
  split
  · exact le_refl _
  · dsimp only
    split
    · exact le_refl _
    · show s.min_vruntime ≤ (insert_task _ _).min_vruntime
      rw [insert_task_min]

/-- Claim C6: across every CFS operation after cfs_init (tick, schedule,
enqueue, dequeue, sleep, wakeup, yield, and the preempt entry point that
wraps schedule), cfs_rq.min_vruntime never decreases, because its only
write site is cfs_update_min_vruntime, which takes a max with the old
value. -/
theorem claim6_min_vruntime_monotone (s : CfsState) :
    s.min_vruntime ≤ (cfs_tick s).min_vruntime ∧
    s.min_vruntime ≤ (cfs_schedule s).min_vruntime ∧
    s.min_vruntime ≤ (cfs_yield s).min_vruntime ∧
    s.min_vruntime ≤ (cfs_preempt s).min_vruntime ∧
    (∀ pid, s.min_vruntime ≤ (cfs_enqueue s pid).min_vruntime) ∧
    (∀ pid, s.min_vruntime ≤ (cfs_dequeue s pid).min_vruntime) ∧
    (∀ pid, s.min_vruntime ≤ (cfs_sleep s pid).min_vruntime) ∧
    (∀ pid, s.min_vruntime ≤ (cfs_wakeup s pid).min_vruntime) :=
  ⟨cfs_tick_min s, cfs_schedule_min s, cfs_yield_min s, cfs_preempt_min s,
   cfs_enqueue_min s, cfs_dequeue_min s, cfs_sleep_min s, cfs_wakeup_min s⟩

/-- Claim C2, violation: lottery_compensate subtracts only the old
compensation from the cached total but adds back the whole new
current_tickets, so each call inflates total_tickets by base_tickets.
After enqueue(1) and compensate(1, 1/2) the single entry holds 200
current tickets while total_tickets reads 300, and the invariant the
code's own lottery_validate checks is broken. -/
theorem claim2_compensate_unbalanced :
    claim2_run.total_tickets = 300 ∧
    (claim2_run.pool.map LEntry.current_tickets).sum = 200 ∧
    ¬ lotteryInv claim2_run := by decide

/-- The winner-search loop agrees with the specification walk whenever
the prefix sums cannot wrap: it returns the first entry at which the
running sum strictly exceeds the winning ticket, with its win count
bumped. -/
theorem drawLoop_spec (winning : Nat) :
    ∀ (l : List LEntry) (acc : Nat),
      acc ≤ winning →
      winning < acc + (l.map LEntry.current_tickets).sum →
      acc + (l.map LEntry.current_tickets).sum < W32 →
      drawLoop winning acc l = some ((spec_first_winner winning acc l).getD 0,
        spec_bump_winner winning acc l) ∧
      (spec_first_winner winning acc l).isSome := by
  intro l
  induction l with
  | nil =>
    intro acc h1 h2 _
    simp at h2
    omega
  | cons e es ih =>
    intro acc h1 h2 h3
    simp only [List.map_cons, List.sum_cons] at h2 h3
    have hadd : add32 acc e.current_tickets = acc + e.current_tickets := by
      unfold add32
      exact Nat.mod_eq_of_lt (by omega)
    by_cases hgt : acc + e.current_tickets > winning
    · constructor
      · simp [drawLoop, spec_first_winner, spec_bump_winner, hadd, hgt]
      · simp [spec_first_winner, hgt]
    · have hle : acc + e.current_tickets ≤ winning := Nat.not_lt.mp hgt
      obtain ⟨hd, hs⟩ := ih (acc + e.current_tickets) hle (by omega) (by omega)
      constructor
      · simp [drawLoop, spec_first_winner, spec_bump_winner, hadd, hgt, hd]
      · simp [spec_first_winner, hgt, hs]

/-- Claim C4: lottery_draw advances the seed with the LCG
state = (state * 1103515245 + 12345) mod 2^32, forms the winning ticket
from bits [30:16] of the new state reduced modulo total_tickets, and
selects the first participant whose running ticket sum strictly exceeds
the winning ticket, bumping that participant's win count; the update is
stated under the cached total being the actual pool sum and below 2^32,
so that the 32-bit accumulator cannot wrap. -/
theorem claim4_draw_lcg (s : LotteryState)
    (h1 : s.pool ≠ [])
    (h2 : 0 < s.total_tickets)
    (h3 : (s.pool.map LEntry.current_tickets).sum = s.total_tickets)
    (h4 : s.total_tickets < W32) :
    random_next_state s.random_state = (s.random_state * 1103515245 + 12345) % W32 ∧
    spec_first_winner ((random_next_state s.random_state / 2 ^ 16 % 2 ^ 15) %
        s.total_tickets) 0 s.pool = some (lottery_draw s).1 ∧
    (lottery_draw s).2 =
      {s with random_state := random_next_state s.random_state,
              pool := spec_bump_winner ((random_next_state s.random_state / 2 ^ 16 % 2 ^ 15) %
                        s.total_tickets) 0 s.pool,
              statTotalLotteries := s.statTotalLotteries + 1} := by
  obtain ⟨hd, hs⟩ := drawLoop_spec
    ((random_next_state s.random_state / 2 ^ 16 % 2 ^ 15) % s.total_tickets) s.pool 0
    (Nat.zero_le _)
    (by simpa [h3] using Nat.mod_lt _ h2)
    (by simpa [h3] using h4)
  obtain ⟨p, hp⟩ := Option.isSome_iff_exists.mp hs
  have hd' : drawLoop ((random_next_state s.random_state / 2 ^ 16 % 2 ^ 15) %
      s.total_tickets) 0 s.pool =
      some (p, spec_bump_winner ((random_next_state s.random_state / 2 ^ 16 % 2 ^ 15) %
        s.total_tickets) 0 s.pool) := by
    rw [hd, hp]
    rfl
  have hguard : ¬ (s.pool = [] ∨ s.total_tickets = 0) := by
    rintro (hc | hc)
    · exact h1 hc
    · omega
  refine ⟨rfl, ?_, ?_⟩
  · rw [hp]
    simp only [lottery_draw, if_neg hguard, hd']
  · simp only [lottery_draw, if_neg hguard, hd']

/-- Claim C4 witness: the draw theorem applied to the concrete two-entry
pool of claim4_state, whose hypotheses hold by computation. -/
theorem claim4_witness :
    (claim4_state.pool ≠ [] ∧ 0 < claim4_state.total_tickets ∧
     (claim4_state.pool.map LEntry.current_tickets).sum = claim4_state.total_tickets ∧
     claim4_state.total_tickets < W32) ∧
    (random_next_state claim4_state.random_state =
        (claim4_state.random_state * 1103515245 + 12345) % W32 ∧
     spec_first_winner ((random_next_state claim4_state.random_state / 2 ^ 16 % 2 ^ 15) %
        claim4_state.total_tickets) 0 claim4_state.pool = some (lottery_draw claim4_state).1 ∧
     (lottery_draw claim4_state).2 =
       {claim4_state with
          random_state := random_next_state claim4_state.random_state,
          pool := spec_bump_winner
            ((random_next_state claim4_state.random_state / 2 ^ 16 % 2 ^ 15) %
              claim4_state.total_tickets) 0 claim4_state.pool,
          statTotalLotteries := claim4_state.statTotalLotteries + 1}) :=
  ⟨⟨by decide, by decide, by decide, by decide⟩,
   claim4_draw_lcg claim4_state (by decide) (by decide) (by decide) (by decide)⟩

/-- Appending a node for a pid absent from the queue makes that node the
first (and only) match of the search. -/
theorem findRRNode_append_single (l : List RRNode) (q : Int) (n : RRNode)
    (h : findRRNode l q = none) (hn : n.pid = q) :
    findRRNode (l ++ [n]) q = some n := by
  induction l with
  | nil => simp [findRRNode, hn]
  | cons a as ih =>
    rw [findRRNode] at h
    rw [List.cons_append, findRRNode]
    by_cases ha : a.pid = q
    · rw [if_pos ha] at h
      exact absurd h (by simp)
    · rw [if_neg ha] at h
      rw [if_neg ha]
      exact ih h

/-- Unlinking an appended node for a pid absent from the rest of the
queue restores the original queue. -/
theorem removeRRNode_append_single (l : List RRNode) (q : Int) (n : RRNode)
    (h : findRRNode l q = none) (hn : n.pid = q) :
    removeRRNode q (l ++ [n]) = l := by
  induction l with
  | nil => simp [removeRRNode, hn]
  | cons a as ih =>
    rw [findRRNode] at h
    rw [List.cons_append, removeRRNode]
    by_cases ha : a.pid = q
    · rw [if_pos ha] at h
      exact absurd h (by simp)
    · rw [if_neg ha] at h
      rw [if_neg ha, ih h]

/-- Adding then subtracting the same tickets in 32-bit arithmetic is the
identity on reduced totals. -/
theorem sub32_add32_cancel (a b : Nat) (ha : a < W32) : sub32 (add32 a b) b = a :=
  eq_of_cast_eq_W32 (sub32_lt _ _) ha (by rw [sub32_cast, add32_cast]; ring)

/-- Claim C9, amended: dequeue after enqueue of a new pid restores the
prior state for the lottery scheduler (when the pid was not enqueued or
running, the cached statistics mirror the live counters, and the cached
total is reduced), but for round robin the total_processes and
max_queue_length statistics keep the values the enqueue gave them, so the
round trip is not the identity there. -/
theorem claim9_round_trip_amended :
    (∀ (s : LotteryState) (p : Int),
        findEntry s.pool p = none →
        s.current_pid ≠ p →
        s.statTotalTickets = s.total_tickets →
        s.statParticipantCount = s.participant_count →
        s.total_tickets < W32 →
        lottery_dequeue (lottery_enqueue s p) p = s) ∧
    (∀ (t : RRState) (q : Int),
        0 ≤ q →
        q < (NPROC : Int) →
        findRRNode t.queue q = none →
        t.current ≠ some q →
        (t.queue = [] → t.current = none) →
        t.statCurrentQueueLength = t.count →
        round_robin_dequeue (round_robin_enqueue t q) q =
          if t.freeNodes = 0 then t
          else {t with statTotalProcesses := t.statTotalProcesses + 1,
                       statMaxQueueLength := if t.count + 1 > t.statMaxQueueLength
                                             then t.count + 1
                                             else t.statMaxQueueLength}) := by
  constructor
  · intro s p hf hcur hst hsp hlt
    obtain ⟨pool, total, pc, ce, cur, tr, rs, fe, sl, stt, spc, str, scg, log⟩ := s
    dsimp only at hf hcur hst hsp hlt ⊢
    subst hst
    subst hsp
    unfold lottery_enqueue
    dsimp only
    rw [if_neg (by simp [hf])]
    by_cases hfree : fe = 0
    · rw [if_pos hfree]
      unfold lottery_dequeue
      simp only [hf]
    · rw [if_neg hfree]
      unfold lottery_dequeue
      dsimp only
      simp only [findEntry, removeEntry, eq_self_iff_true, if_true]
      rw [if_neg hcur, sub32_add32_cancel _ _ hlt]
      simp only [Nat.add_sub_cancel,
        Nat.sub_add_cancel (Nat.one_le_iff_ne_zero.mpr hfree)]
  · intro t q h0 hN hf hcur hemp hlen
    have hpid : ¬ (q < 0 ∨ q ≥ (NPROC : Int)) := by
      rintro (hc | hc) <;> omega
    unfold round_robin_enqueue
    rw [if_neg hpid, if_neg (by simp [hf])]
    by_cases hfree : t.freeNodes = 0
    · rw [if_pos hfree, if_pos hfree]
      unfold round_robin_dequeue
      rw [if_neg hpid]
      simp only [hf]
    · rw [if_neg hfree, if_neg hfree]
      cases hq : t.queue with
      | nil =>
        dsimp only
        unfold round_robin_dequeue
        rw [if_neg hpid]
        have hfind1 :
            findRRNode [{ pid := q, time_remaining := t.quantum, total_time := 0, rounds := 0 }] q =
            some { pid := q, time_remaining := t.quantum, total_time := 0, rounds := 0 } := by
          simp [findRRNode]
        simp only [hfind1]
        rw [if_pos (by simp)]
        rw [hemp hq]
        simp only [Nat.add_sub_cancel,
          Nat.sub_add_cancel (Nat.one_le_iff_ne_zero.mpr hfree), ← hlen]
      | cons a as =>
        dsimp only
        have hf2 : findRRNode (a :: as) q = none := hq ▸ hf
        have hfind2 :
            findRRNode ((a :: as) ++
              [{ pid := q, time_remaining := t.quantum, total_time := 0, rounds := 0 }]) q =
            some { pid := q, time_remaining := t.quantum, total_time := 0, rounds := 0 } :=
          findRRNode_append_single _ _ _ hf2 rfl
        have hrem :
            removeRRNode q ((a :: as) ++
              [{ pid := q, time_remaining := t.quantum, total_time := 0, rounds := 0 }]) =
            a :: as :=
          removeRRNode_append_single _ _ _ hf2 rfl
        unfold round_robin_dequeue
        rw [if_neg hpid]
        simp only [hfind2]
        rw [if_neg (by simp)]
        rw [if_neg hcur, hrem]
        simp only [Nat.add_sub_cancel,
          Nat.sub_add_cancel (Nat.one_le_iff_ne_zero.mpr hfree), ← hlen]

/-- Claim C9 witness: the round trip applied to the freshly initialized
lottery and round-robin states with pid 7, discharging every hypothesis
by computation. -/
theorem claim9_witness :
    (findEntry lottery_init.pool 7 = none ∧ lottery_init.current_pid ≠ 7 ∧
     lottery_dequeue (lottery_enqueue lottery_init 7) 7 = lottery_init) ∧
    (findRRNode round_robin_init.queue 7 = none ∧
     round_robin_dequeue (round_robin_enqueue round_robin_init 7) 7 =
       if round_robin_init.freeNodes = 0 then round_robin_init
       else {round_robin_init with
               statTotalProcesses := round_robin_init.statTotalProcesses + 1,
               statMaxQueueLength :=
                 if round_robin_init.count + 1 > round_robin_init.statMaxQueueLength
                 then round_robin_init.count + 1
                 else round_robin_init.statMaxQueueLength}) :=
  ⟨⟨by decide, by decide,
    claim9_round_trip_amended.1 lottery_init 7 (by decide) (by decide) (by decide)
      (by decide) (by decide)⟩,
   ⟨by decide,
    claim9_round_trip_amended.2 round_robin_init 7 (by decide) (by decide) (by decide)
      (by decide) (by decide) (by decide)⟩⟩

/-- States with the same pool satisfy the claim C8 invariant together. -/
theorem rtInv_of_slots_eq {s s2 : RtState} (h : s2.slots = s.slots) (hs : rtInv s) :
    rtInv s2 := by
  intro t ht
  rw [h] at ht
  exact hs t ht

/-- Variant of the previous lemma with the invariant first, so that
elaboration determines the source state from the proof rather than from
the goal. -/
theorem rtInv_carry {s : RtState} (hs : rtInv s) {s2 : RtState}
    (h : s2.slots = s.slots) : rtInv s2 := by
  intro t ht
  rw [h] at ht
  exact hs t ht

/-- Under the claim C8 invariant, every slot read satisfies the per-task
property once released (out-of-range reads yield the zeroed task, which
has no releases). -/
theorem getSlot_pred (s : RtState) (h : rtInv s) (i : Nat) :
    1 ≤ (getSlot s i).instances → rtTaskP (getSlot s i) := by
  unfold getSlot
  by_cases hlen : i < s.slots.length
  · rw [List.getD_eq_getElem _ _ hlen]
    exact h _ (List.getElem_mem hlen)
  · rw [List.getD_eq_default _ _ (Nat.le_of_not_lt hlen)]
    intro h1
    simp [rtZeroTask] at h1
/-- Slot mutation keeps the claim C8 invariant whenever the mutator maps
tasks satisfying the per-task property to tasks satisfying it. -/
theorem updSlot_rtInv {s : RtState} {i : Nat} {f : RtTask → RtTask}
    (hf : ∀ t, (1 ≤ t.instances → rtTaskP t) → (1 ≤ (f t).instances → rtTaskP (f t)))
    (h : rtInv s) : rtInv (updSlot s i f) := by
  intro t ht hi
  rcases List.mem_or_eq_of_mem_set ht with hmem | heq
  · exact h t hmem hi
  · subst heq
    exact hf _ (getSlot_pred s h i) hi

/-- insert_ready only rewrites state and next fields, so it keeps the
claim C8 invariant. -/
theorem insert_ready_rtInv (s : RtState) (i : Nat) (h : rtInv s) :
    rtInv (insert_ready s i) := by
  unfold insert_ready
  dsimp only
  have h1 : rtInv (updSlot s i (fun t => {t with state := RT_STATE_READY})) :=
    updSlot_rtInv (fun t ht hi => ht hi) h
  split
  · have h2 : rtInv (updSlot (updSlot s i (fun t => {t with state := RT_STATE_READY})) i
        (fun t => {t with next := none})) :=
      updSlot_rtInv (fun t ht hi => ht hi) h1
    exact h2
  · split
    · have h2 : rtInv (updSlot (updSlot s i (fun t => {t with state := RT_STATE_READY})) i
          (fun t => {t with next :=
            (updSlot s i (fun t => {t with state := RT_STATE_READY})).readyHead})) :=
        updSlot_rtInv (fun t ht hi => ht hi) h1
      exact h2
    · refine updSlot_rtInv (fun t ht hi => ?_) (updSlot_rtInv (fun t ht hi => ?_) h1)
      · exact ht hi
      · exact ht hi

/-- The unlink walk of remove_ready keeps the claim C8 invariant. -/
theorem readyUnlinkWalk_rtInv (fuel : Nat) :
    ∀ (s : RtState) (p i : Nat), rtInv s → rtInv (readyUnlinkWalk s fuel p i) := by
  induction fuel with
  | zero => intro s p i h; exact h
  | succ fuel ih =>
    intro s p i h
    unfold readyUnlinkWalk
    split
    · exact h
    · split
      · refine updSlot_rtInv (fun t ht hi => ?_) (updSlot_rtInv (fun t ht hi => ?_) h)
        · exact ht hi
        · exact ht hi
      · exact ih s _ i h

/-- remove_ready keeps the claim C8 invariant. -/
theorem remove_ready_rtInv (s : RtState) (i : Nat) (h : rtInv s) :
    rtInv (remove_ready s i) := by
  unfold remove_ready
  split
  · exact h
  · split
    · refine updSlot_rtInv (fun t ht hi => ?_) (rtInv_carry h rfl)
      exact ht hi
    · exact readyUnlinkWalk_rtInv _ s _ i h

/-- The laxity-refresh walk keeps the claim C8 invariant. -/
theorem llfWalk_rtInv (fuel : Nat) :
    ∀ (s : RtState) (cur : Option Nat), rtInv s → rtInv (llfWalk s fuel cur) := by
  induction fuel with
  | zero => intro s cur h; exact h
  | succ fuel ih =>
    intro s cur h
    unfold llfWalk
    split
    · exact h
    · dsimp only
      split
      · refine ih _ _ (updSlot_rtInv (fun t ht hi => ?_) h)
        exact ht hi
      · exact ih _ _ h

/-- llf_update_laxity keeps the claim C8 invariant. -/
theorem llf_update_laxity_rtInv (s : RtState) (h : rtInv s) :
    rtInv (llf_update_laxity s) :=
  llfWalk_rtInv _ s _ h

/-- The state component of llf_pick_next keeps the claim C8 invariant. -/
theorem llf_pick_next_rtInv (s : RtState) (h : rtInv s) :
    rtInv (llf_pick_next s).1 :=
  llf_update_laxity_rtInv s h

/-- The state component of realtime_check_preempt keeps the claim C8
invariant. -/
theorem realtime_check_preempt_rtInv (s : RtState) (h : rtInv s) :
    rtInv (realtime_check_preempt s).1 := by
  unfold realtime_check_preempt
  split
  · exact h
  · split
    · exact h
    · split
      · exact h
      · split
        · exact h
        · split
          · exact llf_update_laxity_rtInv s h
          · exact h

/-- The context-switch tail of realtime_schedule (current pointer, RUNNING
stamp, statistics, ghost log) keeps the claim C8 invariant. -/
theorem schedule_tail_rtInv (X : RtState) (next : Nat) (old_pid : Int) (hX : rtInv X) :
    rtInv (let s4 : RtState := {X with currentIdx := some next}
           let s5 : RtState := updSlot s4 next
             (fun t => {t with state := RT_STATE_RUNNING, start_time := s4.system_time})
           let s6 : RtState := {s5 with statSwitches := s5.statSwitches + 1}
           {s6 with ctxLog := (old_pid, (getSlot s6 next).pid) :: s6.ctxLog}) := by
  dsimp only
  have h5 : rtInv (updSlot {X with currentIdx := some next} next
      (fun t => {t with state := RT_STATE_RUNNING,
                        start_time := ({X with currentIdx := some next} : RtState).system_time})) :=
    updSlot_rtInv (fun t ht hi => ht hi) (rtInv_carry hX rfl)
  exact h5

/-- realtime_schedule keeps the claim C8 invariant. -/
theorem realtime_schedule_rtInv (s : RtState) (h : rtInv s) :
    rtInv (realtime_schedule s) := by
  unfold realtime_schedule
  dsimp only
  by_cases halgo : s.current_algo = RT_ALGO_LLF
  · rw [if_pos halgo]
    unfold llf_pick_next
    dsimp only
    have hs1 : rtInv (llf_update_laxity s) := llf_update_laxity_rtInv s h
    split
    · exact hs1
    · rename_i next heq
      have h2 : rtInv (remove_ready (llf_update_laxity s) next) :=
        remove_ready_rtInv _ _ hs1
      split
      · exact h2
      · split
        · rename_i c heqc
          split
          · have h3 : rtInv (insert_ready (updSlot (remove_ready (llf_update_laxity s) next)
                c (fun t => {t with state := RT_STATE_READY})) c) :=
              insert_ready_rtInv _ _ (updSlot_rtInv (fun t ht hi => ht hi) h2)
            exact schedule_tail_rtInv _ next _ (rtInv_carry h3 rfl)
          · exact schedule_tail_rtInv _ next _ h2
        · exact schedule_tail_rtInv _ next _ h2
  · rw [if_neg halgo]
    dsimp only
    split
    · exact h
    · rename_i next heq
      have h2 : rtInv (remove_ready s next) := remove_ready_rtInv _ _ h
      split
      · exact h2
      · split
        · rename_i c heqc
          split
          · have h3 : rtInv (insert_ready (updSlot (remove_ready s next)
                c (fun t => {t with state := RT_STATE_READY})) c) :=
              insert_ready_rtInv _ _ (updSlot_rtInv (fun t ht hi => ht hi) h2)
            exact schedule_tail_rtInv _ next _ (rtInv_carry h3 rfl)
          · exact schedule_tail_rtInv _ next _ h2
        · exact schedule_tail_rtInv _ next _ h2

/-- Rewriting only the state field of a slot keeps the claim C8
invariant. -/
theorem updSlot_state_rtInv (s : RtState) (i : Nat) (v : Nat) (h : rtInv s) :
    rtInv (updSlot s i (fun t => {t with state := v})) :=
  updSlot_rtInv (fun t ht hi => ht hi) h

/-- Rewriting only the next pointer of a slot keeps the claim C8
invariant. -/
theorem updSlot_next_rtInv (s : RtState) (i : Nat) (v : Option Nat) (h : rtInv s) :
    rtInv (updSlot s i (fun t => {t with next := v})) :=
  updSlot_rtInv (fun t ht hi => ht hi) h

/-- The release stamp of realtime_release establishes the claim C8
per-task property outright: the absolute deadline is release time plus
relative deadline and the budget is the full WCET. -/
theorem updSlot_release_rtInv (s : RtState) (i : Nat) (sys : Nat) (h : rtInv s) :
    rtInv (updSlot s i (fun t =>
      { t with release_time := sys, absolute_deadline := sys + t.deadline,
               remaining_time := t.wcet, state := RT_STATE_READY,
               instances := t.instances + 1 })) :=
  updSlot_rtInv (fun t ht hi => ⟨rfl, le_refl _⟩) h

/-- The laxity stamp of realtime_release keeps the claim C8 invariant. -/
theorem updSlot_relax_rtInv (s : RtState) (i : Nat) (h : rtInv s) :
    rtInv (updSlot s i (fun t => {t with laxity := (t.deadline : Int) - (t.wcet : Int)})) :=
  updSlot_rtInv (fun t ht hi => ht hi) h

/-- The response-time accumulation of realtime_complete keeps the claim
C8 invariant. -/
theorem updSlot_resp_rtInv (s : RtState) (i : Nat) (r : Nat) (h : rtInv s) :
    rtInv (updSlot s i (fun t =>
      {t with total_response_time := t.total_response_time + r})) :=
  updSlot_rtInv (fun t ht hi => ht hi) h

/-- The worst-response update of realtime_complete keeps the claim C8
invariant. -/
theorem updSlot_worst_rtInv (s : RtState) (i : Nat) (r : Nat) (h : rtInv s) :
    rtInv (updSlot s i (fun t =>
      if r > t.worst_response_time then {t with worst_response_time := r} else t)) := by
  refine updSlot_rtInv (fun t ht hi => ?_) h
  by_cases hc : r > t.worst_response_time
  · rw [if_pos hc] at hi ⊢
    exact ht hi
  · rw [if_neg hc] at hi ⊢
    exact ht hi

/-- The execution-time accumulation of realtime_complete keeps the claim
C8 invariant. -/
theorem updSlot_exec_rtInv (s : RtState) (i : Nat) (h : rtInv s) :
    rtInv (updSlot s i (fun t =>
      {t with total_exec_time := t.total_exec_time + (t.wcet - t.remaining_time)})) :=
  updSlot_rtInv (fun t ht hi => ht hi) h

/-- The completion stamp of realtime_complete keeps the claim C8
invariant. -/
theorem updSlot_comp_rtInv (s : RtState) (i : Nat) (h : rtInv s) :
    rtInv (updSlot s i (fun t =>
      {t with state := RT_STATE_COMPLETED, completions := t.completions + 1})) :=
  updSlot_rtInv (fun t ht hi => ht hi) h

/-- The miss stamp of realtime_handle_miss keeps the claim C8
invariant. -/
theorem updSlot_miss_rtInv (s : RtState) (i : Nat) (h : rtInv s) :
    rtInv (updSlot s i (fun t =>
      {t with state := RT_STATE_MISSED, deadline_misses := t.deadline_misses + 1})) :=
  updSlot_rtInv (fun t ht hi => ht hi) h

/-- The budget decrement of realtime_tick keeps the claim C8 invariant:
the remaining time only shrinks, so it stays below the WCET. -/
theorem updSlot_dec_rtInv (s : RtState) (i : Nat) (h : rtInv s) :
    rtInv (updSlot s i (fun t =>
      if t.remaining_time > 0 then {t with remaining_time := t.remaining_time - 1}
      else t)) := by
  refine updSlot_rtInv (fun t ht hi => ?_) h
  by_cases hc : t.remaining_time > 0
  · rw [if_pos hc] at hi ⊢
    have hP := ht hi
    exact ⟨hP.1, le_trans (Nat.sub_le _ _) hP.2⟩
  · rw [if_neg hc] at hi ⊢
    exact ht hi

/-- realtime_handle_miss keeps the claim C8 invariant. -/
theorem realtime_handle_miss_rtInv (s : RtState) (i : Nat) (h : rtInv s) :
    rtInv (realtime_handle_miss s i) := by
  unfold realtime_handle_miss
  dsimp only
  have h1 : rtInv (updSlot s i (fun t =>
      {t with state := RT_STATE_MISSED, deadline_misses := t.deadline_misses + 1})) :=
    updSlot_miss_rtInv s i h
  have h2 : rtInv (remove_ready {updSlot s i (fun t =>
      {t with state := RT_STATE_MISSED, deadline_misses := t.deadline_misses + 1}) with
        statMisses := (updSlot s i (fun t =>
          {t with state := RT_STATE_MISSED,
                  deadline_misses := t.deadline_misses + 1})).statMisses + 1} i) :=
    remove_ready_rtInv _ i (rtInv_carry h1 rfl)
  split
  · exact h2
  · split
    · split
      · exact rtInv_carry h2 rfl
      · exact h2
    · exact rtInv_carry h1 rfl

/-- The deadline-check walk keeps the claim C8 invariant. -/
theorem deadlinesWalk_rtInv (fuel : Nat) :
    ∀ (s : RtState) (cur : Option Nat), rtInv s → rtInv (deadlinesWalk s fuel cur) := by
  induction fuel with
  | zero => intro s cur h; exact h
  | succ fuel ih =>
    intro s cur h
    unfold deadlinesWalk
    split
    · exact h
    · dsimp only
      split
      · exact ih _ _ (realtime_handle_miss_rtInv _ _ h)
      · exact ih _ _ h

/-- realtime_check_deadlines keeps the claim C8 invariant. -/
theorem realtime_check_deadlines_rtInv (s : RtState) (h : rtInv s) :
    rtInv (realtime_check_deadlines s) :=
  deadlinesWalk_rtInv _ s _ h

/-- realtime_complete keeps the claim C8 invariant. -/
theorem realtime_complete_rtInv (s : RtState) (pid : Int) (h : rtInv s) :
    rtInv (realtime_complete s pid) := by
  unfold realtime_complete
  split
  · exact h
  · rename_i i heq
    dsimp only
    have h1 : rtInv (updSlot s i (fun t =>
        {t with total_response_time := t.total_response_time +
          (s.system_time - (getSlot s i).release_time)})) :=
      updSlot_resp_rtInv s i _ h
    have h2 := updSlot_worst_rtInv _ i (s.system_time - (getSlot s i).release_time) h1
    have h3 := updSlot_exec_rtInv _ i h2
    have h4 := updSlot_comp_rtInv _ i h3
    split
    · exact realtime_schedule_rtInv _
        (remove_ready_rtInv _ _ (rtInv_carry h4 rfl))
    · exact realtime_schedule_rtInv _
        (remove_ready_rtInv _ _ (rtInv_carry h4 rfl))

/-- realtime_release keeps (and for the released slot establishes) the
claim C8 invariant. -/
theorem realtime_release_rtInv (s : RtState) (i : Nat) (h : rtInv s) :
    rtInv (realtime_release s i) := by
  unfold realtime_release
  dsimp only
  have h1 : rtInv (updSlot s i (fun t =>
      { t with release_time := s.system_time,
               absolute_deadline := s.system_time + t.deadline,
               remaining_time := t.wcet, state := RT_STATE_READY,
               instances := t.instances + 1 })) :=
    updSlot_release_rtInv s i s.system_time h
  split
  · have h2 := updSlot_relax_rtInv _ i h1
    have h3 := insert_ready_rtInv _ i h2
    split
    · exact realtime_schedule_rtInv _
        (realtime_check_preempt_rtInv _ (rtInv_carry h3 rfl))
    · exact realtime_check_preempt_rtInv _ (rtInv_carry h3 rfl)
  · have h3 := insert_ready_rtInv _ i h1
    split
    · exact realtime_schedule_rtInv _
        (realtime_check_preempt_rtInv _ (rtInv_carry h3 rfl))
    · exact realtime_check_preempt_rtInv _ (rtInv_carry h3 rfl)

/-- The release-check walk keeps the claim C8 invariant. -/
theorem releasesWalk_rtInv (fuel : Nat) :
    ∀ (s : RtState) (cur : Option Nat), rtInv s → rtInv (releasesWalk s fuel cur) := by
  induction fuel with
  | zero => intro s cur h; exact h
  | succ fuel ih =>
    intro s cur h
    unfold releasesWalk
    split
    · exact h
    · dsimp only
      split
      · exact ih _ _ (realtime_release_rtInv _ _ h)
      · exact ih _ _ h

/-- realtime_check_releases keeps the claim C8 invariant. -/
theorem realtime_check_releases_rtInv (s : RtState) (h : rtInv s) :
    rtInv (realtime_check_releases s) :=
  releasesWalk_rtInv _ s _ h

/-- The LLF ready-queue rebuild walk keeps the claim C8 invariant. -/
theorem resortWalk_rtInv (fuel : Nat) :
    ∀ (s : RtState) (cur : Option Nat), rtInv s → rtInv (resortWalk s fuel cur) := by
  induction fuel with
  | zero => intro s cur h; exact h
  | succ fuel ih =>
    intro s cur h
    unfold resortWalk
    split
    · exact h
    · rename_i i
      exact ih _ _ (insert_ready_rtInv _ i (updSlot_next_rtInv _ i none h))

/-- realtime_yield keeps the claim C8 invariant. -/
theorem realtime_yield_rtInv (s : RtState) (h : rtInv s) :
    rtInv (realtime_yield s) := by
  unfold realtime_yield
  dsimp only
  split
  · exact realtime_schedule_rtInv _ h
  · rename_i c heq
    have hA : rtInv (updSlot s c (fun t =>
        if s.system_time - (getSlot s c).start_time < t.remaining_time
        then {t with remaining_time :=
          t.remaining_time - (s.system_time - (getSlot s c).start_time)}
        else {t with remaining_time := 0})) := by
      refine updSlot_rtInv (fun t ht hi => ?_) h
      by_cases hc : s.system_time - (getSlot s c).start_time < t.remaining_time
      · rw [if_pos hc] at hi ⊢
        have hP := ht hi
        exact ⟨hP.1, le_trans (Nat.sub_le _ _) hP.2⟩
      · rw [if_neg hc] at hi ⊢
        have hP := ht hi
        exact ⟨hP.1, Nat.zero_le _⟩
    have hB := updSlot_state_rtInv _ c RT_STATE_READY hA
    have hC := insert_ready_rtInv _ c hB
    exact realtime_schedule_rtInv _ (rtInv_carry hC rfl)

/-- The shared tail of realtime_tick (deadline checks, release checks,
LLF resort, preemption check, schedule) keeps the claim C8 invariant. -/
theorem tick_tail_rtInv (X : RtState) (hX : rtInv X) :
    rtInv (let s3 := realtime_check_deadlines X
           let s4 := realtime_check_releases s3
           let s5 :=
             if s4.current_algo = RT_ALGO_LLF then
               let sl := llf_update_laxity s4
               let old := sl.readyHead
               let sn : RtState := {sl with readyHead := none}
               resortWalk sn sn.slots.length old
             else s4
           let p := realtime_check_preempt s5
           if p.2 then realtime_schedule p.1 else p.1) := by
  dsimp only
  have h4 : rtInv (realtime_check_releases (realtime_check_deadlines X)) :=
    realtime_check_releases_rtInv _ (realtime_check_deadlines_rtInv _ hX)
  split
  · have hsn : rtInv {llf_update_laxity (realtime_check_releases
        (realtime_check_deadlines X)) with readyHead := none} :=
      rtInv_carry (llf_update_laxity_rtInv _ h4) rfl
    split
    · exact realtime_schedule_rtInv _
        (realtime_check_preempt_rtInv _ (resortWalk_rtInv _ _ _ hsn))
    · exact realtime_check_preempt_rtInv _ (resortWalk_rtInv _ _ _ hsn)
  · split
    · exact realtime_schedule_rtInv _ (realtime_check_preempt_rtInv _ h4)
    · exact realtime_check_preempt_rtInv _ h4

set_option maxHeartbeats 1000000 in
/-- realtime_tick keeps the claim C8 invariant. -/
theorem realtime_tick_rtInv (s : RtState) (h : rtInv s) :
    rtInv (realtime_tick s) := by
  unfold realtime_tick
  dsimp only
  have h1 : rtInv ({s with system_time := s.system_time + 1} : RtState) :=
    rtInv_carry h rfl
  generalize hg : ({s with system_time := s.system_time + 1} : RtState) = S1
  rw [hg] at h1
  cases hcs : s.currentIdx with
  | none => exact tick_tail_rtInv _ h1
  | some c =>
    dsimp only
    by_cases hrun : (getSlot S1 c).state = RT_STATE_RUNNING
    · rw [if_pos hrun]
      have hA : rtInv (updSlot S1 c
          (fun t => if t.remaining_time > 0
                    then {t with remaining_time := t.remaining_time - 1} else t)) :=
        updSlot_dec_rtInv _ c h1
      by_cases hrem : (getSlot (updSlot S1 c
          (fun t => if t.remaining_time > 0
                    then {t with remaining_time := t.remaining_time - 1} else t))
          c).remaining_time = 0
      · rw [if_pos hrem]
        exact tick_tail_rtInv _ (realtime_complete_rtInv _ _ hA)
      · rw [if_neg hrem]
        exact tick_tail_rtInv _ hA
    · rw [if_neg hrun]
      exact tick_tail_rtInv _ h1

/-- Claim C8, amended: for every released task (instances at least one)
the invariant absolute_deadline = release_time + deadline and
remaining_time at most wcet is preserved by realtime_tick,
realtime_yield and realtime_schedule, and is stamped afresh by
realtime_release; realtime_set_params, however, can break it, since it
overwrites deadline and wcet without recomputing the release-derived
fields (claim C8 counterexample). -/
theorem claim8_rt_invariant_amended (s : RtState) (i : Nat) (h : rtInv s) :
    rtInv (realtime_tick s) ∧ rtInv (realtime_yield s) ∧
    rtInv (realtime_schedule s) ∧ rtInv (realtime_release s i) :=
  ⟨realtime_tick_rtInv s h, realtime_yield_rtInv s h,
   realtime_schedule_rtInv s h, realtime_release_rtInv s i h⟩

/-- Claim C8 witness: the preservation theorem applied to the freshly
initialized real-time state and slot 0, whose invariant holds by
computation. -/
theorem claim8_witness :
    rtInv realtime_init ∧
    (rtInv (realtime_tick realtime_init) ∧ rtInv (realtime_yield realtime_init) ∧
     rtInv (realtime_schedule realtime_init) ∧ rtInv (realtime_release realtime_init 0)) :=
  ⟨by decide, claim8_rt_invariant_amended realtime_init 0 (by decide)⟩

/-- Reading the queue just written. -/
theorem getQ_set_self (qs : List (List MNode)) (i : Nat) (X : List MNode)
    (h : i < qs.length) : getQ (qs.set i X) i = X := by
  unfold getQ
  rw [List.getD_eq_getElem _ _ (by simpa using h)]
  simp

/-- Reading another level after a write. -/
theorem getQ_set_ne (qs : List (List MNode)) (i j : Nat) (X : List MNode)
    (h : i ≠ j) : getQ (qs.set i X) j = getQ qs j := by
  unfold getQ
  simp [List.getD_eq_getElem?_getD, List.getElem?_set_ne h]

/-- The level returned by the fueled search is at least the start
level. -/
theorem mlfqFindFrom_le (pid : Int) (n : MNode) (lvl : Nat) :
    ∀ (qs : List (List MNode)) (i : Nat),
      mlfqFindFrom qs pid i = some (n, lvl) → i ≤ lvl := by
  intro qs
  induction qs with
  | nil => intro i h; simp [mlfqFindFrom] at h
  | cons q rest ih =>
    intro i h
    unfold mlfqFindFrom at h
    cases hq : findMNode q pid with
    | some n0 =>
      rw [hq] at h
      simp at h
      omega
    | none =>
      rw [hq] at h
      exact le_trans (Nat.le_succ i) (ih (i + 1) h)

/-- The level returned by the fueled search is within the searched
range. -/
theorem mlfqFindFrom_lt (pid : Int) (n : MNode) (lvl : Nat) :
    ∀ (qs : List (List MNode)) (i : Nat),
      mlfqFindFrom qs pid i = some (n, lvl) → lvl < i + qs.length := by
  intro qs
  induction qs with
  | nil => intro i h; simp [mlfqFindFrom] at h
  | cons q rest ih =>
    intro i h
    unfold mlfqFindFrom at h
    cases hq : findMNode q pid with
    | some n0 =>
      rw [hq] at h
      simp at h
      simp [List.length_cons]
      omega
    | none =>
      rw [hq] at h
      have := ih (i + 1) h
      simp [List.length_cons]
      omega

/-- Overwriting the first pid match of a queue makes the new node the
first match. -/
theorem findMNode_replace (l : List MNode) (pid : Int) (n m : MNode)
    (hm : m.pid = pid) (h : findMNode l pid = some n) :
    findMNode (replaceMNode pid (fun _ => m) l) pid = some m := by
  induction l with
  | nil => simp [findMNode] at h
  | cons a as ih =>
    rw [findMNode] at h
    rw [replaceMNode]
    by_cases ha : a.pid = pid
    · rw [if_pos ha] at h
      rw [if_pos ha, findMNode, if_pos hm]
    · rw [if_neg ha] at h
      rw [if_neg ha, findMNode, if_neg ha]
      exact ih h

/-- Overwriting the queue where the fueled search found its node makes
the search find the replacement at the same level. -/
theorem mlfqFindFrom_replace (pid : Int) (n m : MNode) (hm : m.pid = pid) :
    ∀ (qs : List (List MNode)) (i j : Nat),
      mlfqFindFrom qs pid i = some (n, i + j) →
      mlfqFindFrom (qs.set j (replaceMNode pid (fun _ => m) (qs.getD j []))) pid i =
        some (m, i + j) := by
  intro qs
  induction qs with
  | nil => intro i j h; simp [mlfqFindFrom] at h
  | cons q rest ih =>
    intro i j h
    unfold mlfqFindFrom at h
    cases hq : findMNode q pid with
    | some n0 =>
      rw [hq] at h
      simp at h
      have hj : j = 0 := by omega
      subst hj
      simp only [List.set_cons_zero, List.getD_cons_zero]
      unfold mlfqFindFrom
      rw [findMNode_replace q pid n0 m hm hq]
      simp
    | none =>
      rw [hq] at h
      have hle := mlfqFindFrom_le pid n (i + j) rest (i + 1) h
      have hj : ∃ j2, j = j2 + 1 := ⟨j - 1, by omega⟩
      obtain ⟨j2, hj2⟩ := hj
      subst hj2
      simp only [List.set_cons_succ, List.getD_cons_succ]
      unfold mlfqFindFrom
      rw [hq]
      have harith : i + (j2 + 1) = (i + 1) + j2 := by omega
      rw [harith] at h ⊢
      exact ih (i + 1) j2 h

/-- A found node carries the searched pid. -/
theorem findMNode_pid (pid : Int) (n : MNode) :
    ∀ l : List MNode, findMNode l pid = some n → n.pid = pid := by
  intro l
  induction l with
  | nil => intro h; simp [findMNode] at h
  | cons a as ih =>
    intro h
    rw [findMNode] at h
    by_cases ha : a.pid = pid
    · rw [if_pos ha] at h
      injection h with h
      subst h
      exact ha
    · rw [if_neg ha] at h
      exact ih h

/-- A node found by the level search carries the searched pid. -/
theorem mlfqFindFrom_pid (pid : Int) (n : MNode) (lvl : Nat) :
    ∀ (qs : List (List MNode)) (i : Nat),
      mlfqFindFrom qs pid i = some (n, lvl) → n.pid = pid := by
  intro qs
  induction qs with
  | nil => intro i h; simp [mlfqFindFrom] at h
  | cons q rest ih =>
    intro i h
    unfold mlfqFindFrom at h
    cases hq : findMNode q pid with
    | some n0 =>
      rw [hq] at h
      have hn : n0 = n := by
        injection h with h2
        exact congrArg Prod.fst h2
      subst hn
      exact findMNode_pid pid n0 q hq
    | none =>
      rw [hq] at h
      exact ih (i + 1) h

/-- mlfq_schedule never restructures the queues: it only rewrites the
current pointer, statistics and the ghost log. -/
theorem mlfq_schedule_queues (k : Kern) (s : MlfqState) :
    (mlfq_schedule k s).2.queues = s.queues := by
  unfold mlfq_schedule
  dsimp only
  split
  · rfl
  · split
    · rfl
    · split
      · rfl
      · rfl

/-- Claim C7, amended: on preemption the running node is charged a full
level quantum on top of its accumulated usage (the per-tick accounting in
currentTimeUsed is never copied into the node, claim C7 counterexample);
if the charged usage reaches the allotment the node is demoted: at the
bottom level it is refreshed in place, otherwise it moves to the tail of
the next lower queue with the new level's allotment, zero usage and a new
arrival stamp; below the allotment it rotates to the tail of its own
level. -/
theorem claim7_preempt_demotion_amended (k : Kern) (s : MlfqState) (pid : Int)
    (node : MNode) (lvl : Nat)
    (hcur : s.current = some pid)
    (hfind : mlfqFind s.queues pid = some (node, lvl))
    (hlvl : node.level = lvl)
    (hlen : s.queues.length = MLFQ_NUM_LEVELS) :
    (mlfq_preempt k s).2.queues =
      (if node.time_used + s.levelQuantums.getD lvl 0 ≥ node.time_allotment then
         if MLFQ_NUM_LEVELS - 1 ≤ lvl then
           s.queues.set lvl (replaceMNode pid
             (fun n => {n with time_used := 0,
                               time_allotment := s.levelAllotments.getD lvl 0})
             (replaceMNode pid
               (fun _ => {node with time_used :=
                 node.time_used + s.levelQuantums.getD lvl 0})
               (getQ s.queues lvl)))
         else
           (s.queues.set lvl (removeMNode pid (replaceMNode pid
               (fun _ => {node with time_used :=
                 node.time_used + s.levelQuantums.getD lvl 0})
               (getQ s.queues lvl)))).set (lvl + 1)
             (getQ s.queues (lvl + 1) ++
               [{node with level := lvl + 1, time_used := 0,
                           time_allotment := s.levelAllotments.getD (lvl + 1) 0,
                           arrival_time := s.ticks}])
       else
         s.queues.set lvl (removeMNode pid (replaceMNode pid
             (fun _ => {node with time_used :=
               node.time_used + s.levelQuantums.getD lvl 0})
             (getQ s.queues lvl)) ++
           [{node with time_used := node.time_used + s.levelQuantums.getD lvl 0,
                       level := lvl}])) := by
  have hlt := mlfqFindFrom_lt pid node lvl s.queues 0 hfind
  have hlvl8 : lvl < MLFQ_NUM_LEVELS := by omega
  have hql : lvl < s.queues.length := by omega
  have hpid : node.pid = pid := mlfqFindFrom_pid pid node lvl s.queues 0 hfind
  unfold mlfq_preempt
  dsimp only
  rw [hcur]
  dsimp only
  rw [hfind]
  dsimp only
  rw [hlvl, mlfq_schedule_queues]
  dsimp only
  by_cases hused : node.time_used + s.levelQuantums.getD lvl 0 ≥ node.time_allotment
  · rw [if_pos hused, if_pos hused]
    have hfind2 : mlfqFind (s.queues.set lvl (replaceMNode pid
        (fun _ => ({ pid := node.pid, level := lvl,
                     time_allotment := node.time_allotment,
                     time_used := node.time_used + s.levelQuantums.getD lvl 0,
                     arrival_time := node.arrival_time,
                     io_count := node.io_count } : MNode))
        (getQ s.queues lvl))) pid =
        some (({ pid := node.pid, level := lvl,
                 time_allotment := node.time_allotment,
                 time_used := node.time_used + s.levelQuantums.getD lvl 0,
                 arrival_time := node.arrival_time,
                 io_count := node.io_count } : MNode), lvl) := by
      have hrep := mlfqFindFrom_replace pid node
        ({ pid := node.pid, level := lvl,
           time_allotment := node.time_allotment,
           time_used := node.time_used + s.levelQuantums.getD lvl 0,
           arrival_time := node.arrival_time,
           io_count := node.io_count } : MNode)
        hpid s.queues 0 lvl (by simpa using hfind)
      simpa [mlfqFind, getQ] using hrep
    unfold mlfq_demote
    dsimp only
    rw [hfind2]
    dsimp only
    by_cases hl7 : MLFQ_NUM_LEVELS - 1 ≤ lvl
    · rw [if_pos hl7, if_pos hl7]
      dsimp only
      rw [getQ_set_self _ _ _ hql, List.set_set]
    · rw [if_neg hl7, if_neg hl7]
      unfold mlfq_remove_from_queue mlfq_add_to_level
      dsimp only
      rw [hpid]
      rw [getQ_set_self _ _ _ hql, List.set_set]
      rw [if_neg (by omega)]
      rw [getQ_set_ne _ _ _ _ (by omega)]
  · rw [if_neg hused, if_neg hused]
    unfold mlfq_remove_from_queue mlfq_add_to_level
    dsimp only
    rw [hpid]
    rw [getQ_set_self _ _ _ hql, List.set_set]
    rw [if_neg (by omega)]
    rw [getQ_set_self _ _ _ (by simpa using hql), List.set_set]

/-- Claim C7 witness: the preemption theorem applied to the concrete
state in which pid 1 runs at level 0, discharging every hypothesis by
computation. -/
theorem claim7_witness :
    (claim7_pre.current = some 1 ∧
     mlfqFind claim7_pre.queues 1 = some (claim7_node, 0) ∧
     claim7_node.level = 0 ∧
     claim7_pre.queues.length = MLFQ_NUM_LEVELS) ∧
    (mlfq_preempt kern7 claim7_pre).2.queues =
      (if claim7_node.time_used + claim7_pre.levelQuantums.getD 0 0 ≥
          claim7_node.time_allotment then
         if MLFQ_NUM_LEVELS - 1 ≤ 0 then
           claim7_pre.queues.set 0 (replaceMNode 1
             (fun n => {n with time_used := 0,
                               time_allotment := claim7_pre.levelAllotments.getD 0 0})
             (replaceMNode 1
               (fun _ => {claim7_node with time_used :=
                 claim7_node.time_used + claim7_pre.levelQuantums.getD 0 0})
               (getQ claim7_pre.queues 0)))
         else
           (claim7_pre.queues.set 0 (removeMNode 1 (replaceMNode 1
               (fun _ => {claim7_node with time_used :=
                 claim7_node.time_used + claim7_pre.levelQuantums.getD 0 0})
               (getQ claim7_pre.queues 0)))).set (0 + 1)
             (getQ claim7_pre.queues (0 + 1) ++
               [{claim7_node with level := 0 + 1, time_used := 0,
                                  time_allotment := claim7_pre.levelAllotments.getD (0 + 1) 0,
                                  arrival_time := claim7_pre.ticks}])
       else
         claim7_pre.queues.set 0 (removeMNode 1 (replaceMNode 1
             (fun _ => {claim7_node with time_used :=
               claim7_node.time_used + claim7_pre.levelQuantums.getD 0 0})
             (getQ claim7_pre.queues 0)) ++
           [{claim7_node with
               time_used := claim7_node.time_used + claim7_pre.levelQuantums.getD 0 0,
               level := 0}])) :=
  ⟨⟨by decide, by decide, by decide, by decide⟩,
   claim7_preempt_demotion_amended kern7 claim7_pre 1 claim7_node 0
     (by decide) (by decide) (by decide) (by decide)⟩
